import Mathlib

/-!
Verification of the marshalling / validation layer of the highcharts-core
repository (legend, plot-option, zone and state configuration classes).

The Python data is embedded shallowly:

* `Value` models a Python runtime value as it is passed to the setters of the
  option classes: the JSON-like values (`None`, `bool`, numbers, `str`,
  `list`, `dict`) plus already-constructed `Gradient` / `Pattern` instances.
  Numbers are modelled as rationals (the code only manipulates them through
  validators, never arithmetically).  A `Gradient` / `Pattern` instance is
  modelled by the mapping of its fields (`utility_classes/gradients.py` and
  `utility_classes/patterns.py` are not part of the sources; their contents
  are modelled from the spec, which treats them as value objects with their
  own mapping<->object conversion).
* Each option class becomes a structure whose fields are the internal
  `_snake_case` attributes; each property setter becomes a function
  `Value → Except HCError (Option ...)` translated from the code of the
  setter; raising becomes returning `.error`.
* `from_dict` becomes a function from a field list to `Except HCError` of the
  structure, applying the setters in the order of `__init__`.
* `to_dict` becomes a function producing the untrimmed field list and
  trimming it.  `HighchartsMeta.trim_dict` lives in `metaclasses.py`, which
  is not part of the sources; it is modelled from the spec: recursively drop
  any key whose value is `None`, an empty mapping or an empty sequence, and
  serialize nested entity values through their own mapping conversion.
-/

namespace HighchartsCore

/-- Errors raised by the validation layer.  `validator_collection` errors
(`EmptyValueError`, `CannotCoerceError`, bound violations) are subclasses of
`ValueError`; `highchartsValueError` stands for `errors.HighchartsValueError`;
`typeError` stands for a Python `TypeError`. -/
inductive HCError where
  | emptyValue
  | cannotCoerce
  | belowMinimum
  | highchartsValueError
  | typeError
deriving DecidableEq

/-- A Python runtime value as seen by the setters: JSON-like data plus
already-constructed `Gradient` / `Pattern` instances (represented by the
mapping of their fields). -/
inductive Value where
  | null
  | b (v : Bool)
  | num (q : ℚ)
  | s (v : String)
  | arr (xs : List Value)
  | obj (fs : List (String × Value))
  | gradient (fs : List (String × Value))
  | pattern (fs : List (String × Value))

/-- Python truthiness: `not value` is true exactly for `None`, `False`, zero,
the empty string, the empty list and the empty dict.  Instances are truthy. -/
def Value.falsy : Value → Bool
  | .null => true
  | .b v => !v
  | .num q => q == 0
  | .s v => v == ""
  | .arr xs => xs.isEmpty
  | .obj fs => fs.isEmpty
  | .gradient _ => false
  | .pattern _ => false

/-- Substring test on character lists, used to model Python's
`'marker' in some_string`. -/
def charsContains (pat : List Char) : List Char → Bool
  | [] => pat.isEmpty
  | c :: t => pat.isPrefixOf (c :: t) || charsContains pat t

/-- Python `pat in s` for strings: substring containment. -/
def strContains (s pat : String) : Bool := charsContains pat.data s.data

/-- Python `s.lower()` (the enum values in this code are ASCII). -/
def strToLower (s : String) : String := String.mk (s.data.map Char.toLower)

/-- Python `k in d` for dicts: key membership. -/
def objHasKey (fs : List (String × Value)) (k : String) : Bool :=
  fs.any (fun kv => kv.1 == k)

/-- `'marker' in value` when `value` is known to be a dict or a str
(key membership for dicts, substring containment for strings). -/
def Value.hasMarker : Value → String → Bool
  | .obj fs, k => objHasKey fs k
  | .s str, k => strContains str k
  | _, _ => false

/-- `isinstance(value, dict) and 'marker' in value`. -/
def Value.isDictWithKey : Value → String → Bool
  | .obj fs, k => objHasKey fs k
  | _, _ => false

/-- `as_dict.pop(key, default)`: the value bound to `key`, or the default. -/
def dictPop (fs : List (String × Value)) (k : String) (dflt : Value) : Value :=
  match fs.find? (fun kv => kv.1 == k) with
  | some kv => kv.2
  | none => dflt

/-- Lookup with a `None` default, the way `from_dict` reads absent keys. -/
def dictGet (fs : List (String × Value)) (k : String) : Value :=
  dictPop fs k .null

/-- `d[key] = value` on a Python dict: replace in place if the key is
present, append otherwise. -/
def dictSet (d : List (String × Value)) (k : String) (v : Value) :
    List (String × Value) :=
  if d.any (fun kv => kv.1 == k) then
    d.map (fun kv => if kv.1 == k then (k, v) else kv)
  else
    d ++ [(k, v)]

/-- `for key in parent: d[key] = parent[key]` — the merge loop at the end of
the composed `to_dict` implementations. -/
def dictUpdateAll (d parent : List (String × Value)) : List (String × Value) :=
  parent.foldl (fun acc kv => dictSet acc kv.1 kv.2) d

mutual
/-- Modelled from the spec: `HighchartsMeta.trim_dict` (in `metaclasses.py`,
not part of the sources).  Trimming recursively drops any value that is
`None`, an empty mapping or an empty sequence, and serializes a nested
`Gradient` / `Pattern` value object through its own mapping conversion. -/
def trimV : Value → Option Value
  | .null => none
  | .b v => some (.b v)
  | .num q => some (.num q)
  | .s v => if v == "" then none else some (.s v)
  | .arr xs =>
      let xs' := trimList xs
      if xs'.isEmpty then none else some (.arr xs')
  | .obj fs =>
      let fs' := trimFields fs
      if fs'.isEmpty then none else some (.obj fs')
  | .gradient fs =>
      let fs' := trimFields fs
      if fs'.isEmpty then none else some (.obj fs')
  | .pattern fs =>
      let fs' := trimFields fs
      if fs'.isEmpty then none else some (.obj fs')

/-- Trimming of a list value: trim every element, dropping the empty ones. -/
def trimList : List Value → List Value
  | [] => []
  | x :: t =>
      match trimV x with
      | none => trimList t
      | some x' => x' :: trimList t

/-- Trimming of a mapping: trim every bound value, dropping the keys whose
value trims away. -/
def trimFields : List (String × Value) → List (String × Value)
  | [] => []
  | (k, v) :: t =>
      match trimV v with
      | none => trimFields t
      | some v' => (k, v') :: trimFields t
end

namespace validators

/-- `validator_collection.validators.string(value, allow_empty)`: falsy input
returns `None` when allowed and raises `EmptyValueError` otherwise; a
non-empty `str` is returned; any other type raises `CannotCoerceError`. -/
def string (allow_empty : Bool) (value : Value) : Except HCError (Option String) :=
  if value.falsy then
    if allow_empty then .ok none else .error .emptyValue
  else
    match value with
    | .s str => .ok (some str)
    | _ => .error .cannotCoerce

/-- `validator_collection.validators.numeric(value, allow_empty, minimum)`:
`None` returns `None` when allowed; numbers (and bools, which are ints in
Python) are checked against the minimum; other types raise
`CannotCoerceError`. -/
def numeric (allow_empty : Bool) (minimum : Option ℚ) (value : Value) :
    Except HCError (Option ℚ) :=
  match value with
  | .null => if allow_empty then .ok none else .error .emptyValue
  | .num q =>
      match minimum with
      | some m => if q < m then .error .belowMinimum else .ok (some q)
      | none => .ok (some q)
  | .b v =>
      let q : ℚ := if v then 1 else 0
      match minimum with
      | some m => if q < m then .error .belowMinimum else .ok (some q)
      | none => .ok (some q)
  | _ => .error .cannotCoerce

/-- `validator_collection.validators.integer(value, allow_empty, minimum)`:
like `numeric` but restricted to whole numbers. -/
def integer (allow_empty : Bool) (minimum : Option ℤ) (value : Value) :
    Except HCError (Option ℤ) :=
  match value with
  | .null => if allow_empty then .ok none else .error .emptyValue
  | .num q =>
      if q.den = 1 then
        match minimum with
        | some m => if q.num < m then .error .belowMinimum else .ok (some q.num)
        | none => .ok (some q.num)
      else .error .cannotCoerce
  | .b v =>
      let n : ℤ := if v then 1 else 0
      match minimum with
      | some m => if n < m then .error .belowMinimum else .ok (some n)
      | none => .ok (some n)
  | _ => .error .cannotCoerce

end validators

/-- The `if value is None: ... = None else: ... = bool(value)` setter pattern
used by the boolean fields: only `None` maps to `None`; every other value is
coerced by truthiness, so `False` is preserved. -/
def boolSetter (value : Value) : Option Bool :=
  match value with
  | .null => none
  | v => some (!v.falsy)

/-- Modelled from the spec: the `@class_sensitive(T)` nested-entity setter for
nested option classes whose modules are not part of the sources
(`LegendAccessibilityOptions`, `LegendNavigation`, `BubbleLegend`,
`LegendTitle`, `CallbackFunction`, ...).  The nested entity is represented by
the mapping of its fields: `None` maps to `None`, a mapping is accepted, any
other value fails validation. -/
def nestedSetter (value : Value) :
    Except HCError (Option (List (String × Value))) :=
  match value with
  | .null => .ok none
  | .obj fs => .ok (some fs)
  | _ => .error .highchartsValueError

end HighchartsCore

namespace HighchartsCore

/-- The value stored in a color-valued field: a plain color string, a
`Gradient` instance or a `Pattern` instance. -/
inductive ColorValue where
  | s (v : String)
  | gradient (fs : List (String × Value))
  | pattern (fs : List (String × Value))

/-- A stored color placed back into an (untrimmed) outbound mapping. -/
def serializeColor : ColorValue → Value
  | .s v => .s v
  | .gradient fs => .gradient fs
  | .pattern fs => .pattern fs

/-- An optional string read into an untrimmed mapping (`None` when unset). -/
def optStr : Option String → Value
  | none => .null
  | some v => .s v

/-- An optional number read into an untrimmed mapping. -/
def optNum : Option ℚ → Value
  | none => .null
  | some q => .num q

/-- An optional integer read into an untrimmed mapping. -/
def optInt : Option ℤ → Value
  | none => .null
  | some n => .num (n : ℚ)

/-- An optional boolean read into an untrimmed mapping. -/
def optBool : Option Bool → Value
  | none => .null
  | some v => .b v

/-- An optional color read into an untrimmed mapping. -/
def optColor : Option ColorValue → Value
  | none => .null
  | some c => serializeColor c

/-- An optional nested-entity value read into an untrimmed mapping: the
nested entity serializes through its own mapping conversion. -/
def optNested : Option (List (String × Value)) → Value
  | none => .null
  | some fs => .obj fs

/-- Modelled from the spec: `constants.SUPPORTED_DASH_STYLE_VALUES`
(`constants.py` is not part of the sources); the recognized values are the
eleven capitalized dash-style names listed in the `Zone.dash_style`
documentation. -/
def SUPPORTED_DASH_STYLE_VALUES : List String :=
  ["Dash", "DashDot", "Dot", "LongDash", "LongDashDot", "LongDashDotDot",
   "ShortDash", "ShortDashDot", "ShortDashDotDot", "ShortDot", "Solid"]

/-- `Zone.color` setter (`plot_options/zones.py`).  `Gradient.from_json` /
`Pattern.from_json` (modules not in the sources) are modelled from the spec:
the structured parse succeeds on a mapping and fails with `ValueError` on a
plain color string, after which a mapping is rebuilt through `from_dict` and
a string falls back to `validators.string`. -/
def Zone.colorSetter (value : Value) : Except HCError (Option ColorValue) :=
  if value.falsy then .ok none
  else match value with
    | .gradient fs => .ok (some (.gradient fs))
    | .pattern fs => .ok (some (.pattern fs))
    | v =>
      if v.hasMarker "linearGradient" then
        match v with
        | .obj fs => .ok (some (.gradient fs))
        | .s str => (validators.string false (.s str)).map (fun r => r.map ColorValue.s)
        | _ => .error .highchartsValueError
      else if v.isDictWithKey "linear_gradient" then
        match v with
        | .obj fs => .ok (some (.gradient fs))
        | _ => .error .highchartsValueError
      else if v.hasMarker "patternOptions" then
        match v with
        | .obj fs => .ok (some (.pattern fs))
        | .s str => (validators.string false (.s str)).map (fun r => r.map ColorValue.s)
        | _ => .error .highchartsValueError
      else if v.isDictWithKey "pattern_options" then
        match v with
        | .obj fs => .ok (some (.pattern fs))
        | _ => .error .highchartsValueError
      else .error .highchartsValueError

/-- `Zone.fill_color` setter (`plot_options/zones.py`), a verbatim copy of
the polymorphic color resolution chain. -/
def Zone.fillColorSetter (value : Value) : Except HCError (Option ColorValue) :=
  if value.falsy then .ok none
  else match value with
    | .gradient fs => .ok (some (.gradient fs))
    | .pattern fs => .ok (some (.pattern fs))
    | v =>
      if v.hasMarker "linearGradient" then
        match v with
        | .obj fs => .ok (some (.gradient fs))
        | .s str => (validators.string false (.s str)).map (fun r => r.map ColorValue.s)
        | _ => .error .highchartsValueError
      else if v.isDictWithKey "linear_gradient" then
        match v with
        | .obj fs => .ok (some (.gradient fs))
        | _ => .error .highchartsValueError
      else if v.hasMarker "patternOptions" then
        match v with
        | .obj fs => .ok (some (.pattern fs))
        | .s str => (validators.string false (.s str)).map (fun r => r.map ColorValue.s)
        | _ => .error .highchartsValueError
      else if v.isDictWithKey "pattern_options" then
        match v with
        | .obj fs => .ok (some (.pattern fs))
        | _ => .error .highchartsValueError
      else .error .highchartsValueError

/-- `Zone.class_name` setter: `validators.string(value, allow_empty=True)`. -/
def Zone.classNameSetter (value : Value) : Except HCError (Option String) :=
  validators.string true value

/-- `Zone.dash_style` setter: truthiness guard, `validators.string`, then a
case-sensitive membership test against the supported dash-style names (the
input is not lower-cased). -/
def Zone.dashStyleSetter (value : Value) : Except HCError (Option String) :=
  if value.falsy then .ok none
  else
    match validators.string false value with
    | .error e => .error e
    | .ok none => .ok none
    | .ok (some str) =>
        if SUPPORTED_DASH_STYLE_VALUES.contains str then .ok (some str)
        else .error .highchartsValueError

/-- `Zone.value` setter: `validators.numeric(value_, allow_empty=True)`. -/
def Zone.valueSetter (value : Value) : Except HCError (Option ℚ) :=
  validators.numeric true none value

/-- A zone defined within a series (`plot_options/zones.py`): the internal
attributes set by `__init__`. -/
structure Zone where
  class_name : Option String
  color : Option ColorValue
  dash_style : Option String
  fill_color : Option ColorValue
  value : Option ℚ

/-- `Zone.from_dict`: pop the recognized camelCase keys (defaulting to
`None`) and construct, which routes every value through the corresponding
setter in `__init__` order. -/
def Zone.fromDict (as_dict : List (String × Value)) : Except HCError Zone := do
  let class_name ← Zone.classNameSetter (dictPop as_dict "className" .null)
  let color ← Zone.colorSetter (dictPop as_dict "color" .null)
  let dash_style ← Zone.dashStyleSetter (dictPop as_dict "dashStyle" .null)
  let fill_color ← Zone.fillColorSetter (dictPop as_dict "fillColor" .null)
  let value ← Zone.valueSetter (dictPop as_dict "value" .null)
  return { class_name := class_name, color := color, dash_style := dash_style,
           fill_color := fill_color, value := value }

/-- The untrimmed mapping built by `Zone.to_dict`. -/
def Zone.untrimmedDict (z : Zone) : List (String × Value) :=
  [("className", optStr z.class_name),
   ("color", optColor z.color),
   ("dashStyle", optStr z.dash_style),
   ("fillColor", optColor z.fill_color),
   ("value", optNum z.value)]

/-- `Zone.to_dict`: the untrimmed mapping passed through `trim_dict`. -/
def Zone.toDict (z : Zone) : List (String × Value) :=
  trimFields (Zone.untrimmedDict z)

end HighchartsCore

namespace HighchartsCore

/-- The value stored in `Legend.shadow`: the literal `False`, or a
`ShadowOptions` configuration (`utility_classes/shadows.py` is not part of
the sources; the instance is modelled by the mapping of its fields). -/
inductive ShadowValue where
  | off
  | opts (fs : List (String × Value))

/-- The value stored in `Legend.width`: a percentage string or a number. -/
inductive WidthValue where
  | s (v : String)
  | n (q : ℚ)

/-- A stored shadow read into an untrimmed mapping. -/
def optShadow : Option ShadowValue → Value
  | none => .null
  | some .off => .b false
  | some (.opts fs) => .obj fs

/-- A stored width read into an untrimmed mapping. -/
def optWidth : Option WidthValue → Value
  | none => .null
  | some (.s v) => .s v
  | some (.n q) => .num q

/-- `Legend.align` setter (`legend/__init__.py`): truthiness guard,
`validators.string`, lower-casing, then membership in the allowed set. -/
def Legend.alignSetter (value : Value) : Except HCError (Option String) :=
  if value.falsy then .ok none
  else
    match validators.string false value with
    | .error e => .error e
    | .ok none => .ok none
    | .ok (some str) =>
        let str := strToLower str
        if (["left", "center", "right"] : List String).contains str then
          .ok (some str)
        else .error .highchartsValueError

/-- `Legend.layout` setter: like `align` with its own allowed set. -/
def Legend.layoutSetter (value : Value) : Except HCError (Option String) :=
  if value.falsy then .ok none
  else
    match validators.string false value with
    | .error e => .error e
    | .ok none => .ok none
    | .ok (some str) =>
        let str := strToLower str
        if (["horizontal", "vertical", "proximate"] : List String).contains str then
          .ok (some str)
        else .error .highchartsValueError

/-- `Legend.vertical_align` setter (the `validators.string` call here passes
`allow_empty=True`, which makes no difference after the truthiness guard). -/
def Legend.verticalAlignSetter (value : Value) : Except HCError (Option String) :=
  if value.falsy then .ok none
  else
    match validators.string true value with
    | .error e => .error e
    | .ok none => .ok none
    | .ok (some str) =>
        let str := strToLower str
        if (["bottom", "middle", "top"] : List String).contains str then
          .ok (some str)
        else .error .highchartsValueError

/-- `Legend.background_color` setter (`legend/__init__.py`), a verbatim copy
of the polymorphic color resolution chain. -/
def Legend.backgroundColorSetter (value : Value) :
    Except HCError (Option ColorValue) :=
  if value.falsy then .ok none
  else match value with
    | .gradient fs => .ok (some (.gradient fs))
    | .pattern fs => .ok (some (.pattern fs))
    | v =>
      if v.hasMarker "linearGradient" then
        match v with
        | .obj fs => .ok (some (.gradient fs))
        | .s str => (validators.string false (.s str)).map (fun r => r.map ColorValue.s)
        | _ => .error .highchartsValueError
      else if v.isDictWithKey "linear_gradient" then
        match v with
        | .obj fs => .ok (some (.gradient fs))
        | _ => .error .highchartsValueError
      else if v.hasMarker "patternOptions" then
        match v with
        | .obj fs => .ok (some (.pattern fs))
        | .s str => (validators.string false (.s str)).map (fun r => r.map ColorValue.s)
        | _ => .error .highchartsValueError
      else if v.isDictWithKey "pattern_options" then
        match v with
        | .obj fs => .ok (some (.pattern fs))
        | _ => .error .highchartsValueError
      else .error .highchartsValueError

/-- `Legend.border_color` setter, another verbatim copy of the chain. -/
def Legend.borderColorSetter (value : Value) :
    Except HCError (Option ColorValue) :=
  if value.falsy then .ok none
  else match value with
    | .gradient fs => .ok (some (.gradient fs))
    | .pattern fs => .ok (some (.pattern fs))
    | v =>
      if v.hasMarker "linearGradient" then
        match v with
        | .obj fs => .ok (some (.gradient fs))
        | .s str => (validators.string false (.s str)).map (fun r => r.map ColorValue.s)
        | _ => .error .highchartsValueError
      else if v.isDictWithKey "linear_gradient" then
        match v with
        | .obj fs => .ok (some (.gradient fs))
        | _ => .error .highchartsValueError
      else if v.hasMarker "patternOptions" then
        match v with
        | .obj fs => .ok (some (.pattern fs))
        | .s str => (validators.string false (.s str)).map (fun r => r.map ColorValue.s)
        | _ => .error .highchartsValueError
      else if v.isDictWithKey "pattern_options" then
        match v with
        | .obj fs => .ok (some (.pattern fs))
        | _ => .error .highchartsValueError
      else .error .highchartsValueError

/-- `Legend.shadow` setter: `None` passes through, the literal `False` is
stored, anything else goes through `validate_types(..., ShadowOptions,
allow_none=False)` (modelled from the spec: a mapping builds the nested
entity, anything else fails). -/
def Legend.shadowSetter (value : Value) : Except HCError (Option ShadowValue) :=
  match value with
  | .null => .ok none
  | .b false => .ok (some .off)
  | .obj fs => .ok (some (.opts fs))
  | _ => .error .highchartsValueError

/-- `Legend.enabled` setter: the `is None` guard preserves `False`. -/
def Legend.enabledSetter (value : Value) : Option Bool :=
  boolSetter value

/-- `Legend.width` setter: truthiness guard, then `validators.string` with a
fallback to `validators.numeric(value, minimum=0)` when the string validator
raises `ValueError`. -/
def Legend.widthSetter (value : Value) : Except HCError (Option WidthValue) :=
  if value.falsy then .ok none
  else
    match validators.string false value with
    | .ok (some str) => .ok (some (.s str))
    | .ok none => .ok none
    | .error _ =>
        match validators.numeric false (some 0) value with
        | .ok (some q) => .ok (some (.n q))
        | .ok none => .ok none
        | .error e => .error e

/-- `Legend.x` setter: the body is `value = validators.numeric(value,
allow_empty=True)` — the validated result is bound to the local name and
`self._x` is never assigned, so the stored value is whatever it already was
(`None` after `__init__`). -/
def Legend.xSetter (old : Option ℚ) (value : Value) : Except HCError (Option ℚ) :=
  (validators.numeric true none value).map (fun _ => old)

/-- `Legend.y` setter: identical to `Legend.x` — validates and discards. -/
def Legend.ySetter (old : Option ℚ) (value : Value) : Except HCError (Option ℚ) :=
  (validators.numeric true none value).map (fun _ => old)

/-- The legend configuration (`legend/__init__.py`): the internal attributes
set by `__init__`.  Nested option classes whose modules are not part of the
sources are represented by the mapping of their fields. -/
structure Legend where
  accessibility : Option (List (String × Value))
  align : Option String
  align_columns : Option Bool
  background_color : Option ColorValue
  border_color : Option ColorValue
  border_width : Option ℚ
  border_radius : Option ℚ
  bubble_legend : Option (List (String × Value))
  class_name : Option String
  enabled : Option Bool
  floating : Option Bool
  item_checkbox_style : Option String
  item_distance : Option ℚ
  item_hidden_style : Option String
  item_hover_style : Option String
  item_margin_bottom : Option ℚ
  item_margin_top : Option ℚ
  item_style : Option String
  item_width : Option ℚ
  label_format : Option String
  label_formatter : Option (List (String × Value))
  layout : Option String
  margin : Option ℚ
  max_height : Option ℚ
  navigation : Option (List (String × Value))
  padding : Option ℚ
  reversed : Option Bool
  rtl : Option Bool
  shadow : Option ShadowValue
  square_symbol : Option Bool
  symbol_height : Option ℚ
  symbol_padding : Option ℚ
  symbol_radius : Option ℚ
  symbol_width : Option ℚ
  title : Option (List (String × Value))
  use_html : Option Bool
  vertical_align : Option String
  width : Option WidthValue
  x : Option ℚ
  y : Option ℚ

/-- `Legend.from_dict`: pop the recognized camelCase keys (default `None`)
and construct, routing every value through the corresponding setter in
`__init__` assignment order. -/
def Legend.fromDict (as_dict : List (String × Value)) : Except HCError Legend := do
  let accessibility ← nestedSetter (dictPop as_dict "accessibility" .null)
  let align ← Legend.alignSetter (dictPop as_dict "align" .null)
  let align_columns := boolSetter (dictPop as_dict "alignColumns" .null)
  let background_color ← Legend.backgroundColorSetter (dictPop as_dict "backgroundColor" .null)
  let border_color ← Legend.borderColorSetter (dictPop as_dict "borderColor" .null)
  let border_width ← validators.numeric true none (dictPop as_dict "borderWidth" .null)
  let border_radius ← validators.numeric true none (dictPop as_dict "borderRadius" .null)
  let bubble_legend ← nestedSetter (dictPop as_dict "bubbleLegend" .null)
  let class_name ← validators.string true (dictPop as_dict "className" .null)
  let enabled := Legend.enabledSetter (dictPop as_dict "enabled" .null)
  let floating := boolSetter (dictPop as_dict "floating" .null)
  let item_checkbox_style ← validators.string true (dictPop as_dict "itemCheckboxStyle" .null)
  let item_distance ← validators.numeric true (some 0) (dictPop as_dict "itemDistance" .null)
  let item_hidden_style ← validators.string true (dictPop as_dict "itemHiddenStyle" .null)
  let item_hover_style ← validators.string true (dictPop as_dict "itemHoverStyle" .null)
  let item_margin_bottom ← validators.numeric true (some 0) (dictPop as_dict "itemMarginBottom" .null)
  let item_margin_top ← validators.numeric true (some 0) (dictPop as_dict "itemMarginTop" .null)
  let item_style ← validators.string true (dictPop as_dict "itemStyle" .null)
  let item_width ← validators.numeric true (some 0) (dictPop as_dict "itemWidth" .null)
  let label_format ← validators.string true (dictPop as_dict "labelFormat" .null)
  let label_formatter ← nestedSetter (dictPop as_dict "labelFormatter" .null)
  let layout ← Legend.layoutSetter (dictPop as_dict "layout" .null)
  let margin ← validators.numeric true none (dictPop as_dict "margin" .null)
  let max_height ← validators.numeric true (some 0) (dictPop as_dict "maxHeight" .null)
  let navigation ← nestedSetter (dictPop as_dict "navigation" .null)
  let padding ← validators.numeric true none (dictPop as_dict "padding" .null)
  let reversed := boolSetter (dictPop as_dict "reversed" .null)
  let rtl := boolSetter (dictPop as_dict "rtl" .null)
  let shadow ← Legend.shadowSetter (dictPop as_dict "shadow" .null)
  let square_symbol := boolSetter (dictPop as_dict "squareSymbol" .null)
  let symbol_height ← validators.numeric true (some 0) (dictPop as_dict "symbolHeight" .null)
  let symbol_padding ← validators.numeric true none (dictPop as_dict "symbolPadding" .null)
  let symbol_radius ← validators.numeric true none (dictPop as_dict "symbolRadius" .null)
  let symbol_width ← validators.numeric true (some 0) (dictPop as_dict "symbolWidth" .null)
  let title ← nestedSetter (dictPop as_dict "title" .null)
  let use_html := boolSetter (dictPop as_dict "useHTML" .null)
  let vertical_align ← Legend.verticalAlignSetter (dictPop as_dict "verticalAlign" .null)
  let width ← Legend.widthSetter (dictPop as_dict "width" .null)
  let x ← Legend.xSetter none (dictPop as_dict "x" .null)
  let y ← Legend.ySetter none (dictPop as_dict "y" .null)
  return { accessibility := accessibility, align := align,
           align_columns := align_columns,
           background_color := background_color, border_color := border_color,
           border_width := border_width, border_radius := border_radius,
           bubble_legend := bubble_legend, class_name := class_name,
           enabled := enabled, floating := floating,
           item_checkbox_style := item_checkbox_style,
           item_distance := item_distance,
           item_hidden_style := item_hidden_style,
           item_hover_style := item_hover_style,
           item_margin_bottom := item_margin_bottom,
           item_margin_top := item_margin_top, item_style := item_style,
           item_width := item_width, label_format := label_format,
           label_formatter := label_formatter, layout := layout,
           margin := margin, max_height := max_height,
           navigation := navigation, padding := padding,
           reversed := reversed, rtl := rtl, shadow := shadow,
           square_symbol := square_symbol, symbol_height := symbol_height,
           symbol_padding := symbol_padding, symbol_radius := symbol_radius,
           symbol_width := symbol_width, title := title,
           use_html := use_html, vertical_align := vertical_align,
           width := width, x := x, y := y }

/-- `Legend._to_untrimmed_dict`: the untrimmed mapping with camelCase keys. -/
def Legend.untrimmedDict (l : Legend) : List (String × Value) :=
  [("accessibility", optNested l.accessibility),
   ("align", optStr l.align),
   ("alignColumns", optBool l.align_columns),
   ("backgroundColor", optColor l.background_color),
   ("borderColor", optColor l.border_color),
   ("borderWidth", optNum l.border_width),
   ("borderRadius", optNum l.border_radius),
   ("bubbleLegend", optNested l.bubble_legend),
   ("className", optStr l.class_name),
   ("enabled", optBool l.enabled),
   ("floating", optBool l.floating),
   ("itemCheckboxStyle", optStr l.item_checkbox_style),
   ("itemDistance", optNum l.item_distance),
   ("itemHiddenStyle", optStr l.item_hidden_style),
   ("itemHoverStyle", optStr l.item_hover_style),
   ("itemMarginBottom", optNum l.item_margin_bottom),
   ("itemMarginTop", optNum l.item_margin_top),
   ("itemStyle", optStr l.item_style),
   ("itemWidth", optNum l.item_width),
   ("labelFormat", optStr l.label_format),
   ("labelFormatter", optNested l.label_formatter),
   ("layout", optStr l.layout),
   ("margin", optNum l.margin),
   ("maxHeight", optNum l.max_height),
   ("navigation", optNested l.navigation),
   ("padding", optNum l.padding),
   ("reversed", optBool l.reversed),
   ("rtl", optBool l.rtl),
   ("shadow", optShadow l.shadow),
   ("squareSymbol", optBool l.square_symbol),
   ("symbolHeight", optNum l.symbol_height),
   ("symbolPadding", optNum l.symbol_padding),
   ("symbolRadius", optNum l.symbol_radius),
   ("symbolWidth", optNum l.symbol_width),
   ("title", optNested l.title),
   ("useHTML", optBool l.use_html),
   ("verticalAlign", optStr l.vertical_align),
   ("width", optWidth l.width),
   ("x", optNum l.x),
   ("y", optNum l.y)]

/-- The legend's outbound mapping: the metaclass `to_dict` (modelled from the
spec) trims the untrimmed mapping. -/
def Legend.toDict (l : Legend) : List (String × Value) :=
  trimFields (Legend.untrimmedDict l)

end HighchartsCore

namespace HighchartsCore

/-- An animation configuration (`utility_classes/animation.py`): the internal
attributes set by `__init__`.  `CallbackFunction` values
(`javascript_functions.py` is not part of the sources) are represented by the
mapping of their fields. -/
structure AnimationOptions where
  complete : Option (List (String × Value))
  defer : Option ℤ
  duration : Option ℤ
  easing : Option String
  step : Option (List (String × Value))

/-- `AnimationOptions.from_dict`: pop the recognized keys and construct. -/
def AnimationOptions.fromDict (as_dict : List (String × Value)) :
    Except HCError AnimationOptions := do
  let complete ← nestedSetter (dictPop as_dict "complete" .null)
  let defer ← validators.integer true (some 0) (dictPop as_dict "defer" .null)
  let duration ← validators.integer true (some 0) (dictPop as_dict "duration" .null)
  let easing ← validators.string true (dictPop as_dict "easing" .null)
  let step ← nestedSetter (dictPop as_dict "step" .null)
  return { complete := complete, defer := defer, duration := duration,
           easing := easing, step := step }

/-- `AnimationOptions._to_untrimmed_dict`. -/
def AnimationOptions.untrimmedDict (a : AnimationOptions) :
    List (String × Value) :=
  [("complete", optNested a.complete),
   ("defer", optInt a.defer),
   ("duration", optInt a.duration),
   ("easing", optStr a.easing),
   ("step", optNested a.step)]

/-- A stored animation configuration read into an untrimmed mapping: the
nested entity serializes through its own mapping conversion. -/
def optAnimation : Option AnimationOptions → Value
  | none => .null
  | some a => .obj (AnimationOptions.untrimmedDict a)

/-- `HoverState.animation` setter: `@class_sensitive(AnimationOptions)`
(`decorators.py` is not part of the sources; modelled from the spec as the
nested-entity constructor: `None` passes, a mapping builds the entity,
anything else fails). -/
def HoverState.animationSetter (value : Value) :
    Except HCError (Option AnimationOptions) :=
  match value with
  | .null => .ok none
  | .obj fs => (AnimationOptions.fromDict fs).map some
  | _ => .error .highchartsValueError

/-- `HoverState.border_color` setter (`utility_classes/states.py`), another
verbatim copy of the polymorphic color resolution chain. -/
def HoverState.borderColorSetter (value : Value) :
    Except HCError (Option ColorValue) :=
  if value.falsy then .ok none
  else match value with
    | .gradient fs => .ok (some (.gradient fs))
    | .pattern fs => .ok (some (.pattern fs))
    | v =>
      if v.hasMarker "linearGradient" then
        match v with
        | .obj fs => .ok (some (.gradient fs))
        | .s str => (validators.string false (.s str)).map (fun r => r.map ColorValue.s)
        | _ => .error .highchartsValueError
      else if v.isDictWithKey "linear_gradient" then
        match v with
        | .obj fs => .ok (some (.gradient fs))
        | _ => .error .highchartsValueError
      else if v.hasMarker "patternOptions" then
        match v with
        | .obj fs => .ok (some (.pattern fs))
        | .s str => (validators.string false (.s str)).map (fun r => r.map ColorValue.s)
        | _ => .error .highchartsValueError
      else if v.isDictWithKey "pattern_options" then
        match v with
        | .obj fs => .ok (some (.pattern fs))
        | _ => .error .highchartsValueError
      else .error .highchartsValueError

/-- `HoverState.color` effective setter: the class body defines the `color`
property twice, and the later definition wins in Python, so the polymorphic
resolver in the first definition is shadowed by
`validators.string(value, allow_empty=True)`. -/
def HoverState.colorSetter (value : Value) : Except HCError (Option String) :=
  validators.string true value

/-- Options for the hovered point/series (`utility_classes/states.py`): the
internal attributes set by `__init__`.  Because of the duplicated `color`
property, the stored color is a plain optional string. -/
structure HoverState where
  animation : Option AnimationOptions
  border_color : Option ColorValue
  brightness : Option ℚ
  color : Option String
  enabled : Option Bool

/-- `HoverState.from_dict`: pop the recognized keys — with the non-`None`
defaults `0.1` for `brightness` and `True` for `enabled` — and construct in
`__init__` order. -/
def HoverState.fromDict (as_dict : List (String × Value)) :
    Except HCError HoverState := do
  let animation ← HoverState.animationSetter (dictPop as_dict "animation" .null)
  let border_color ← HoverState.borderColorSetter (dictPop as_dict "borderColor" .null)
  let brightness ← validators.numeric true none (dictPop as_dict "brightness" (.num (1/10)))
  let color ← HoverState.colorSetter (dictPop as_dict "color" .null)
  let enabled := boolSetter (dictPop as_dict "enabled" (.b true))
  return { animation := animation, border_color := border_color,
           brightness := brightness, color := color, enabled := enabled }

/-- The untrimmed mapping built by `HoverState.to_dict`. -/
def HoverState.untrimmedDict (h : HoverState) : List (String × Value) :=
  [("animation", optAnimation h.animation),
   ("borderColor", optColor h.border_color),
   ("brightness", optNum h.brightness),
   ("color", optStr h.color),
   ("enabled", optBool h.enabled)]

/-- `HoverState.to_dict`: the untrimmed mapping passed through `trim_dict`. -/
def HoverState.toDict (h : HoverState) : List (String × Value) :=
  trimFields (HoverState.untrimmedDict h)

/-- `SelectState.border_color` setter (`utility_classes/states.py`), another
verbatim copy of the polymorphic color resolution chain. -/
def SelectState.borderColorSetter (value : Value) :
    Except HCError (Option ColorValue) :=
  if value.falsy then .ok none
  else match value with
    | .gradient fs => .ok (some (.gradient fs))
    | .pattern fs => .ok (some (.pattern fs))
    | v =>
      if v.hasMarker "linearGradient" then
        match v with
        | .obj fs => .ok (some (.gradient fs))
        | .s str => (validators.string false (.s str)).map (fun r => r.map ColorValue.s)
        | _ => .error .highchartsValueError
      else if v.isDictWithKey "linear_gradient" then
        match v with
        | .obj fs => .ok (some (.gradient fs))
        | _ => .error .highchartsValueError
      else if v.hasMarker "patternOptions" then
        match v with
        | .obj fs => .ok (some (.pattern fs))
        | .s str => (validators.string false (.s str)).map (fun r => r.map ColorValue.s)
        | _ => .error .highchartsValueError
      else if v.isDictWithKey "pattern_options" then
        match v with
        | .obj fs => .ok (some (.pattern fs))
        | _ => .error .highchartsValueError
      else .error .highchartsValueError

/-- `SelectState.color` effective setter: like `HoverState.color`, the second
property definition shadows the polymorphic resolver with
`validators.string(value, allow_empty=True)`. -/
def SelectState.colorSetter (value : Value) : Except HCError (Option String) :=
  validators.string true value

end HighchartsCore

namespace HighchartsCore

/-- An optional raw value read into an untrimmed mapping (used for fields
whose stored value is kept as-is, e.g. `TreemapOptions.color_axis`). -/
def optAny : Option Value → Value
  | none => .null
  | some v => v

/-- `HeatmapOptions.null_color` setter (`plot_options/heatmap.py`), another
verbatim copy of the polymorphic color resolution chain. -/
def HeatmapOptions.nullColorSetter (value : Value) :
    Except HCError (Option ColorValue) :=
  if value.falsy then .ok none
  else match value with
    | .gradient fs => .ok (some (.gradient fs))
    | .pattern fs => .ok (some (.pattern fs))
    | v =>
      if v.hasMarker "linearGradient" then
        match v with
        | .obj fs => .ok (some (.gradient fs))
        | .s str => (validators.string false (.s str)).map (fun r => r.map ColorValue.s)
        | _ => .error .highchartsValueError
      else if v.isDictWithKey "linear_gradient" then
        match v with
        | .obj fs => .ok (some (.gradient fs))
        | _ => .error .highchartsValueError
      else if v.hasMarker "patternOptions" then
        match v with
        | .obj fs => .ok (some (.pattern fs))
        | .s str => (validators.string false (.s str)).map (fun r => r.map ColorValue.s)
        | _ => .error .highchartsValueError
      else if v.isDictWithKey "pattern_options" then
        match v with
        | .obj fs => .ok (some (.pattern fs))
        | _ => .error .highchartsValueError
      else .error .highchartsValueError

/-- General options for heatmap series (`plot_options/heatmap.py`): the
attributes declared by `HeatmapOptions` itself (its parent `SeriesOptions`
lives in `plot_options/series.py`, which is not part of the sources). -/
structure HeatmapOptions where
  border_radius : Option ℚ
  colsize : Option ℤ
  null_color : Option ColorValue
  point_padding : Option ℚ
  rowsize : Option ℤ

/-- The child-level untrimmed mapping built by `HeatmapOptions.to_dict`. -/
def HeatmapOptions.untrimmedDict (h : HeatmapOptions) : List (String × Value) :=
  [("borderRadius", optNum h.border_radius),
   ("colsize", optInt h.colsize),
   ("nullColor", optColor h.null_color),
   ("pointPadding", optNum h.point_padding),
   ("rowsize", optInt h.rowsize)]

/-- `HeatmapOptions.to_dict`: builds the child untrimmed mapping, then runs
`for key in parent_as_dict: untrimmed[key] = parent_as_dict[key]` — writing
the parent's entries over the child's — and trims once at the end.
`parent_as_dict` stands for the result of `super().to_dict()`
(`SeriesOptions` is not part of the sources; per the spec it is the parent's
produced mapping, passed here as a parameter). -/
def HeatmapOptions.toDict (h : HeatmapOptions)
    (parent_as_dict : List (String × Value)) : List (String × Value) :=
  trimFields (dictUpdateAll (HeatmapOptions.untrimmedDict h) parent_as_dict)

/-- `SankeyOptions.link_color_mode` setter
(`highcharts_core/options/plot_options/sankey.py`): truthiness guard,
`validators.string`, lower-casing, then membership in the allowed set. -/
def SankeyOptions.linkColorModeSetter (value : Value) :
    Except HCError (Option String) :=
  if value.falsy then .ok none
  else
    match validators.string false value with
    | .error e => .error e
    | .ok none => .ok none
    | .ok (some str) =>
        let str := strToLower str
        if (["from", "gradient", "to"] : List String).contains str then
          .ok (some str)
        else .error .highchartsValueError

/-- General options for sankey series: the attribute declared by
`SankeyOptions` itself (its parent `DependencyWheelOptions` is not part of
the sources). -/
structure SankeyOptions where
  link_color_mode : Option String

/-- `SankeyOptions._to_untrimmed_dict`: builds the child untrimmed mapping,
then runs `for key in parent_as_dict: untrimmed[key] = parent_as_dict[key]`
— writing the parent's entries over the child's — and returns without
trimming.  `parent_as_dict` stands for the result of
`super()._to_untrimmed_dict(in_cls)` (the parent class is not part of the
sources; passed here as a parameter). -/
def SankeyOptions.toUntrimmedDict (s : SankeyOptions)
    (parent_as_dict : List (String × Value)) : List (String × Value) :=
  dictUpdateAll [("linkColorMode", optStr s.link_color_mode)] parent_as_dict

/-- Modelled from the spec: `validate_types(item, types=(Gradient, Pattern))`
(`decorators.py` is not part of the sources).  Typed instances pass through,
a mapping constructs the matching value object, and any other value — in
particular a plain color string — cannot be classified and fails
validation. -/
def validateTypesGradientOrPattern (item : Value) : Except HCError ColorValue :=
  match item with
  | .gradient fs => .ok (.gradient fs)
  | .pattern fs => .ok (.pattern fs)
  | .obj fs => .ok (.gradient fs)
  | _ => .error .highchartsValueError

/-- The `checked_values` loop of the `TreemapOptions.colors` setter:
`for item in value: ... checked_values.append(processed_item)`, aborting at
the first validation failure. -/
def checkedValues : List Value → Except HCError (List ColorValue)
  | [] => .ok []
  | item :: rest =>
      match validateTypesGradientOrPattern item with
      | .error e => .error e
      | .ok c =>
          match checkedValues rest with
          | .error e => .error e
          | .ok cs => .ok (c :: cs)

/-- `TreemapOptions.colors` setter (`plot_options/treemap.py`): truthiness
guard, `validators.iterable` (which forbids string literals as iterables),
then the per-item loop.  Inside the loop the guard is
`if isinstance(value, str)` — it inspects the whole validated list `value`,
never the loop item — so for a list input the guard is always false and
every item, plain color strings included, is routed through
`validate_types(item, types=(Gradient, Pattern))`. -/
def TreemapOptions.colorsSetter (value : Value) :
    Except HCError (Option (List ColorValue)) :=
  if value.falsy then .ok none
  else
    match value with
    | .arr items => (checkedValues items).map some
    | _ => .error .cannotCoerce

/-- General options for treemap series (`plot_options/treemap.py`): the
internal attributes set by `__init__`.  Nested option classes whose modules
are not part of the sources (`BreadcrumbOptions`, `TreemapLevelOptions`) are
represented by the mapping of their fields; `color_axis` keeps its raw
validated value (string, integer or boolean). -/
structure TreemapOptions where
  animation_limit : Option ℚ
  boost_blending : Option String
  boost_threshold : Option ℤ
  border_radius : Option ℚ
  color_axis : Option Value
  color_key : Option String
  colors : Option (List ColorValue)
  crop_threshold : Option ℤ
  find_nearest_point_by : Option String
  get_extremes_for_all : Option Bool
  ignore_hidden_point : Option Bool
  linecap : Option String
  line_width : Option ℚ
  negative_color : Option ColorValue
  point_interval : Option ℚ
  point_interval_unit : Option String
  point_start : Option ℚ
  relative_x_value : Option Bool
  soft_threshold : Option Bool
  stacking : Option String
  step : Option String
  zone_axis : Option String
  zones : Option (List Zone)
  color_by_point : Bool
  color_index : Option ℤ
  crisp : Option Bool
  allow_traversing_tree : Option Bool
  breadcrumbs : Option (List (String × Value))
  level_is_constant : Option Bool
  levels : Option (List (List (String × Value)))
  alternate_starting_direction : Option Bool
  interact_by_leaf : Option Bool
  layout_algorithm : Option String
  layout_starting_direction : Option String
  sort_index : Option ℤ

/-- A stored list of colors read into an untrimmed mapping. -/
def optColorList : Option (List ColorValue) → Value
  | none => .null
  | some cs => .arr (cs.map serializeColor)

/-- A stored list of zones read into an untrimmed mapping: each zone
serializes through its own mapping conversion. -/
def optZoneList : Option (List Zone) → Value
  | none => .null
  | some zs => .arr (zs.map (fun z => .obj (Zone.untrimmedDict z)))

/-- A stored list of nested-entity values read into an untrimmed mapping. -/
def optNestedList : Option (List (List (String × Value))) → Value
  | none => .null
  | some ls => .arr (ls.map (fun fs => .obj fs))

/-- The child-level untrimmed mapping built by `TreemapOptions.to_dict`, in
source order. -/
def TreemapOptions.untrimmedDict (t : TreemapOptions) : List (String × Value) :=
  [("animationLimit", optNum t.animation_limit),
   ("boostBlending", optStr t.boost_blending),
   ("boostThreshold", optInt t.boost_threshold),
   ("colorAxis", optAny t.color_axis),
   ("colorKey", optStr t.color_key),
   ("colors", optColorList t.colors),
   ("cropThreshold", optInt t.crop_threshold),
   ("findNearestPointBy", optStr t.find_nearest_point_by),
   ("getExtremesForAll", optBool t.get_extremes_for_all),
   ("ignoreHiddenPoint", optBool t.ignore_hidden_point),
   ("linecap", optStr t.linecap),
   ("lineWidth", optNum t.line_width),
   ("negativeColor", optColor t.negative_color),
   ("pointInterval", optNum t.point_interval),
   ("pointIntervalUnit", optStr t.point_interval_unit),
   ("pointStart", optNum t.point_start),
   ("relativeXValue", optBool t.relative_x_value),
   ("softThreshold", optBool t.soft_threshold),
   ("stacking", optStr t.stacking),
   ("step", optStr t.step),
   ("zoneAxis", optStr t.zone_axis),
   ("zones", optZoneList t.zones),
   ("colorIndex", optInt t.color_index),
   ("crisp", optBool t.crisp),
   ("allowTraversingTree", optBool t.allow_traversing_tree),
   ("breadcrumbs", optNested t.breadcrumbs),
   ("colorByPoint", Value.b t.color_by_point),
   ("levelIsConstant", optBool t.level_is_constant),
   ("levels", optNestedList t.levels),
   ("alternateStartingDirection", optBool t.alternate_starting_direction),
   ("interactByLeaf", optBool t.interact_by_leaf),
   ("layoutAlgorithm", optStr t.layout_algorithm),
   ("layoutStartingDirection", optStr t.layout_starting_direction),
   ("sortIndex", optInt t.sort_index)]

/-- `TreemapOptions.to_dict`: builds the child untrimmed mapping, then
evaluates `parent_as_dict = super(self).to_dict()`.  Calling `super` with
the instance as its single argument raises `TypeError` in Python (`super`
requires a type as first argument), so the merge loop and the final
`trim_dict` are never reached and `to_dict` never returns a mapping. -/
def TreemapOptions.toDict (t : TreemapOptions) :
    Except HCError (List (String × Value)) :=
  let _untrimmed := TreemapOptions.untrimmedDict t
  .error .typeError

end HighchartsCore
namespace HighchartsCore

theorem bool_eq_false {b : Bool} (h : ¬ b = true) : b = false := by
  cases b
  · rfl
  · exact absurd rfl h

theorem find_map_replace (k : String) (v : Value) :
    ∀ d : List (String × Value), d.any (fun kv => kv.1 == k) = true →
      (d.map (fun kv => if kv.1 == k then (k, v) else kv)).find?
          (fun kv => kv.1 == k) = some (k, v) := by
  intro d
  induction d with
  | nil => intro h; simp [List.any_nil] at h
  | cons kv₀ t ih =>
    intro h
    rw [List.map_cons]
    by_cases h0 : (kv₀.1 == k) = true
    · rw [if_pos h0]
      exact List.find?_cons_of_pos _ (beq_self_eq_true k)
    · have h0' := bool_eq_false h0
      rw [if_neg h0]
      rw [List.find?_cons_of_neg _ (by rw [h0']; exact Bool.false_ne_true)]
      apply ih
      rw [List.any_cons, h0'] at h
      simpa using h

theorem find_append_right (k : String) (v : Value) :
    ∀ d : List (String × Value), d.any (fun kv => kv.1 == k) = false →
      (d ++ [(k, v)]).find? (fun kv => kv.1 == k) = some (k, v) := by
  intro d
  induction d with
  | nil =>
    intro _
    rw [List.nil_append]
    exact List.find?_cons_of_pos _ (beq_self_eq_true k)
  | cons kv₀ t ih =>
    intro h
    rw [List.any_cons] at h
    have h0 : (kv₀.1 == k) = false := by
      cases hb : (kv₀.1 == k)
      · rfl
      · rw [hb] at h; simp at h
    have h' : t.any (fun kv => kv.1 == k) = false := by
      rw [h0] at h; simpa using h
    rw [List.cons_append]
    rw [List.find?_cons_of_neg _ (by rw [h0]; exact Bool.false_ne_true)]
    exact ih h'

theorem find_dictSet_self (d : List (String × Value)) (k : String) (v : Value) :
    (dictSet d k v).find? (fun kv => kv.1 == k) = some (k, v) := by
  unfold dictSet
  by_cases h : d.any (fun kv => kv.1 == k) = true
  · rw [if_pos h]; exact find_map_replace k v d h
  · have h' := bool_eq_false h
    rw [if_neg h]
    exact find_append_right k v d h'

theorem find_map_replace_other (k₀ : String) (v₀ : Value) (k : String)
    (hk : (k₀ == k) = false) :
    ∀ d : List (String × Value),
      (d.map (fun kv => if kv.1 == k₀ then (k₀, v₀) else kv)).find?
          (fun kv => kv.1 == k) = d.find? (fun kv => kv.1 == k) := by
  intro d
  induction d with
  | nil => rfl
  | cons kv₁ t ih =>
    rw [List.map_cons]
    by_cases h1 : (kv₁.1 == k₀) = true
    · have h1k : (kv₁.1 == k) = false := by
        rw [eq_of_beq h1]; exact hk
      rw [if_pos h1]
      rw [List.find?_cons_of_neg _ (by rw [show ((k₀, v₀).1 == k) = false from hk]; exact Bool.false_ne_true)]
      rw [List.find?_cons_of_neg _ (by rw [h1k]; exact Bool.false_ne_true)]
      exact ih
    · rw [if_neg h1]
      by_cases h2 : (kv₁.1 == k) = true
      · rw [List.find?_cons_of_pos (p := fun kv : String × Value => kv.1 == k) _ h2,
           List.find?_cons_of_pos (p := fun kv : String × Value => kv.1 == k) _ h2]
      · have h2' := bool_eq_false h2
        rw [List.find?_cons_of_neg _ (by rw [h2']; exact Bool.false_ne_true)]
        rw [List.find?_cons_of_neg _ (by rw [h2']; exact Bool.false_ne_true)]
        exact ih

theorem find_append_single_other (k₀ : String) (v₀ : Value) (k : String)
    (hk : (k₀ == k) = false) :
    ∀ d : List (String × Value),
      (d ++ [(k₀, v₀)]).find? (fun kv => kv.1 == k) = d.find? (fun kv => kv.1 == k) := by
  intro d
  induction d with
  | nil =>
    rw [List.nil_append, List.find?_nil]
    rw [List.find?_cons_of_neg _ (by rw [show ((k₀, v₀).1 == k) = false from hk]; exact Bool.false_ne_true)]
    rfl
  | cons kv₁ t ih =>
    rw [List.cons_append]
    by_cases h2 : (kv₁.1 == k) = true
    · rw [List.find?_cons_of_pos (p := fun kv : String × Value => kv.1 == k) _ h2,
         List.find?_cons_of_pos (p := fun kv : String × Value => kv.1 == k) _ h2]
    · have h2' := bool_eq_false h2
      rw [List.find?_cons_of_neg _ (by rw [h2']; exact Bool.false_ne_true)]
      rw [List.find?_cons_of_neg _ (by rw [h2']; exact Bool.false_ne_true)]
      exact ih

theorem find_dictSet_other (d : List (String × Value)) (k₀ : String) (v₀ : Value)
    (k : String) (hk : (k₀ == k) = false) :
    (dictSet d k₀ v₀).find? (fun kv => kv.1 == k) = d.find? (fun kv => kv.1 == k) := by
  unfold dictSet
  by_cases h : d.any (fun kv => kv.1 == k₀) = true
  · rw [if_pos h]; exact find_map_replace_other k₀ v₀ k hk d
  · rw [if_neg h]; exact find_append_single_other k₀ v₀ k hk d

end HighchartsCore
namespace HighchartsCore

theorem find_dictUpdateAll_not_mem :
    ∀ (parent d : List (String × Value)) (k : String),
      (∀ kv ∈ parent, ¬ (kv.1 == k) = true) →
      (dictUpdateAll d parent).find? (fun kv => kv.1 == k) =
        d.find? (fun kv => kv.1 == k) := by
  intro parent
  induction parent with
  | nil => intro d k _; rfl
  | cons kv₀ t ih =>
    intro d k h
    have h0 : (kv₀.1 == k) = false :=
      bool_eq_false (h kv₀ (List.mem_cons_self _ _))
    show (dictUpdateAll (dictSet d kv₀.1 kv₀.2) t).find? _ = _
    rw [ih (dictSet d kv₀.1 kv₀.2) k
        (fun kv hm => h kv (List.mem_cons_of_mem _ hm))]
    exact find_dictSet_other d kv₀.1 kv₀.2 k h0

theorem find_dictUpdateAll :
    ∀ (parent d : List (String × Value)) (k : String) (v : Value),
      (parent.map Prod.fst).Nodup →
      parent.find? (fun kv => kv.1 == k) = some (k, v) →
      (dictUpdateAll d parent).find? (fun kv => kv.1 == k) = some (k, v) := by
  intro parent
  induction parent with
  | nil => intro d k v _ hf; rw [List.find?_nil] at hf; cases hf
  | cons kv₀ t ih =>
    intro d k v hnd hf
    rw [List.map_cons, List.nodup_cons] at hnd
    by_cases h0 : (kv₀.1 == k) = true
    · rw [List.find?_cons_of_pos (p := fun kv : String × Value => kv.1 == k) _ h0] at hf
      have hkv : kv₀ = (k, v) := by injection hf
      subst hkv
      show (dictUpdateAll (dictSet d k v) t).find? _ = _
      have hall : ∀ kv ∈ t, ¬ (kv.1 == k) = true := by
        intro kv hkv' hbeq
        have hmem : kv.1 ∈ List.map Prod.fst t := List.mem_map_of_mem Prod.fst hkv'
        rw [eq_of_beq hbeq] at hmem
        exact hnd.1 hmem
      rw [find_dictUpdateAll_not_mem t (dictSet d k v) k hall]
      exact find_dictSet_self d k v
    · have h0' := bool_eq_false h0
      rw [List.find?_cons_of_neg _ (by rw [h0']; exact Bool.false_ne_true)] at hf
      show (dictUpdateAll (dictSet d kv₀.1 kv₀.2) t).find? _ = _
      exact ih (dictSet d kv₀.1 kv₀.2) k v hnd.2 hf

theorem keys_map_replace (k : String) (v : Value) (d : List (String × Value)) :
    (d.map (fun kv => if kv.1 == k then (k, v) else kv)).map Prod.fst =
      d.map Prod.fst := by
  induction d with
  | nil => rfl
  | cons kv₀ t ih =>
    rw [List.map_cons, List.map_cons, List.map_cons]
    by_cases h0 : (kv₀.1 == k) = true
    · rw [if_pos h0]
      have hfst : (k, v).1 = kv₀.1 := (eq_of_beq h0).symm
      rw [hfst, ih]
    · rw [if_neg h0, ih]

theorem nodup_keys_dictSet (d : List (String × Value)) (k : String) (v : Value)
    (h : (d.map Prod.fst).Nodup) : ((dictSet d k v).map Prod.fst).Nodup := by
  unfold dictSet
  by_cases ha : d.any (fun kv => kv.1 == k) = true
  · rw [if_pos ha, keys_map_replace]; exact h
  · rw [if_neg ha, List.map_append]
    rw [List.nodup_append]
    refine ⟨h, List.nodup_singleton k, ?_⟩
    intro a hma hmb
    have hak : a = k := by
      simpa using hmb
    subst hak
    obtain ⟨kv, hm, hfst⟩ := List.mem_map.mp hma
    exact ha (List.any_eq_true.mpr ⟨kv, hm, by rw [hfst]; exact beq_self_eq_true a⟩)

theorem nodup_keys_dictUpdateAll :
    ∀ (parent d : List (String × Value)), (d.map Prod.fst).Nodup →
      ((dictUpdateAll d parent).map Prod.fst).Nodup := by
  intro parent
  induction parent with
  | nil => intro d h; exact h
  | cons kv₀ t ih =>
    intro d h
    exact ih _ (nodup_keys_dictSet d kv₀.1 kv₀.2 h)

theorem find_trimFields_not_mem (k : String) :
    ∀ fs : List (String × Value), (∀ kv ∈ fs, ¬ (kv.1 == k) = true) →
      (trimFields fs).find? (fun kv => kv.1 == k) = none := by
  intro fs
  induction fs with
  | nil => intro _; rfl
  | cons kv₀ t ih =>
    intro h
    obtain ⟨k₀, v₀⟩ := kv₀
    have h0 : (k₀ == k) = false :=
      bool_eq_false (h (k₀, v₀) (List.mem_cons_self _ _))
    have ht : ∀ kv ∈ t, ¬ (kv.1 == k) = true :=
      fun kv hm => h kv (List.mem_cons_of_mem _ hm)
    cases htv : trimV v₀ with
    | none => simp only [trimFields, htv]; exact ih ht
    | some w =>
      simp only [trimFields, htv]
      rw [List.find?_cons_of_neg _ (by rw [show (((k₀, w) : String × Value).1 == k) = false from h0]; exact Bool.false_ne_true)]
      exact ih ht

theorem find_trimFields (k : String) :
    ∀ fs : List (String × Value), (fs.map Prod.fst).Nodup →
      (trimFields fs).find? (fun kv => kv.1 == k) =
        (fs.find? (fun kv => kv.1 == k)).bind
          (fun kv => (trimV kv.2).map (fun w => (kv.1, w))) := by
  intro fs
  induction fs with
  | nil => intro _; rfl
  | cons kv₀ t ih =>
    intro hnd
    obtain ⟨k₀, v₀⟩ := kv₀
    rw [List.map_cons, List.nodup_cons] at hnd
    by_cases h0 : ((k₀ : String) == k) = true
    · have hk : k₀ = k := eq_of_beq h0
      rw [List.find?_cons_of_pos (p := fun kv : String × Value => kv.1 == k) _ h0]
      have hall : ∀ kv ∈ t, ¬ (kv.1 == k) = true := by
        intro kv hkv' hbeq
        have hmem : kv.1 ∈ List.map Prod.fst t := List.mem_map_of_mem Prod.fst hkv'
        rw [eq_of_beq hbeq, ← hk] at hmem
        exact hnd.1 hmem
      cases htv : trimV v₀ with
      | none =>
        simp only [trimFields, htv]
        rw [find_trimFields_not_mem k t hall]
        rw [Option.some_bind, htv]
        rfl
      | some w =>
        simp only [trimFields, htv]
        rw [List.find?_cons_of_pos (p := fun kv : String × Value => kv.1 == k) _ h0]
        rw [Option.some_bind, htv]
        rfl
    · have h0' := bool_eq_false h0
      rw [List.find?_cons_of_neg _ (by rw [show (((k₀, v₀) : String × Value).1 == k) = false from h0']; exact Bool.false_ne_true)]
      cases htv : trimV v₀ with
      | none => simp only [trimFields, htv]; exact ih hnd.2
      | some w =>
        simp only [trimFields, htv]
        rw [List.find?_cons_of_neg _ (by rw [show (((k₀, w) : String × Value).1 == k) = false from h0']; exact Bool.false_ne_true)]
        exact ih hnd.2

theorem dictPop_trimFields (fs : List (String × Value))
    (hnd : (fs.map Prod.fst).Nodup) (k : String) (v : Value)
    (hfind : fs.find? (fun kv => kv.1 == k) = some (k, v)) :
    dictPop (trimFields fs) k .null = (trimV v).getD .null := by
  unfold dictPop
  rw [find_trimFields k fs hnd, hfind]
  cases htv : trimV v <;> simp [htv]

end HighchartsCore
namespace HighchartsCore

/-- The wire form of a stored color after trimming: the plain string, or the
(already trimmed) mapping of the value object. -/
def colorWire : ColorValue → Value
  | .s x => .s x
  | .gradient fs => .obj fs
  | .pattern fs => .obj fs

/-- A stored color reachable through the polymorphic resolver whose wire form
resolves back to it: a string carrying one of the two discriminator markers,
a gradient whose (trimming-invariant) fields carry the gradient discriminator
key, or a pattern whose fields carry the pattern discriminator key and
neither gradient key. -/
def ColorGood : ColorValue → Prop
  | .s x => strContains x "linearGradient" = true ∨ strContains x "patternOptions" = true
  | .gradient fs => trimFields fs = fs ∧ objHasKey fs "linearGradient" = true
  | .pattern fs => trimFields fs = fs ∧ objHasKey fs "patternOptions" = true ∧
      objHasKey fs "linearGradient" = false ∧ objHasKey fs "linear_gradient" = false

theorem trimV_serializeColor (c : ColorValue) (h : ColorGood c) :
    trimV (serializeColor c) = some (colorWire c) := by
  cases c with
  | s x =>
    have hx : (x == "") = false := by
      cases hb : (x == "")
      · rfl
      · exfalso
        have hxe : x = "" := eq_of_beq hb
        subst hxe
        rcases h with h | h
        · exact absurd h (by decide)
        · exact absurd h (by decide)
    simp [serializeColor, colorWire, trimV, hx]
  | gradient fs =>
    obtain ⟨htrim, hkey⟩ := h
    cases fs with
    | nil => exact absurd hkey (by decide)
    | cons kv t =>
      simp only [serializeColor, colorWire, trimV, htrim]
      rfl
  | pattern fs =>
    obtain ⟨htrim, hkey, _, _⟩ := h
    cases fs with
    | nil => exact absurd hkey (by decide)
    | cons kv t =>
      simp only [serializeColor, colorWire, trimV, htrim]
      rfl

theorem colorSetter_wire (c : ColorValue) (h : ColorGood c) :
    Zone.colorSetter (colorWire c) = .ok (some c) := by
  cases c with
  | s x =>
    have hx : (x == "") = false := by
      cases hb : (x == "")
      · rfl
      · exfalso
        have hxe : x = "" := eq_of_beq hb
        subst hxe
        rcases h with h | h
        · exact absurd h (by decide)
        · exact absurd h (by decide)
    by_cases h1 : strContains x "linearGradient" = true
    · simp [colorWire, Zone.colorSetter, Value.falsy, hx, Value.hasMarker, h1,
            validators.string, Except.map]
    · have h1' := bool_eq_false h1
      have h2 : strContains x "patternOptions" = true := by
        rcases h with h | h
        · exact absurd h h1
        · exact h
      simp [colorWire, Zone.colorSetter, Value.falsy, hx, Value.hasMarker,
            Value.isDictWithKey, h1', h2, validators.string, Except.map]
  | gradient fs =>
    obtain ⟨htrim, hkey⟩ := h
    have hne : fs.isEmpty = false := by
      cases fs
      · exact absurd hkey (by decide)
      · rfl
    simp [colorWire, Zone.colorSetter, Value.falsy, hne, Value.hasMarker, hkey]
  | pattern fs =>
    obtain ⟨htrim, hkey, hlin, hlin2⟩ := h
    have hne : fs.isEmpty = false := by
      cases fs
      · exact absurd hkey (by decide)
      · rfl
    simp [colorWire, Zone.colorSetter, Value.falsy, hne, Value.hasMarker,
          Value.isDictWithKey, hkey, hlin, hlin2]

theorem classNameSetter_roundtrip (o : Option String)
    (h : ∀ s, o = some s → (s == "") = false) :
    Zone.classNameSetter ((trimV (optStr o)).getD .null) = .ok o := by
  cases o with
  | none => rfl
  | some s =>
    have hs := h s rfl
    simp [optStr, trimV, hs, Zone.classNameSetter, validators.string, Value.falsy]

theorem valueSetter_roundtrip (o : Option ℚ) :
    Zone.valueSetter ((trimV (optNum o)).getD .null) = .ok o := by
  cases o <;> rfl

theorem dash_mem_ne_empty (s : String) (h : s ∈ SUPPORTED_DASH_STYLE_VALUES) :
    (s == "") = false := by
  fin_cases h <;> rfl

theorem dashStyleSetter_roundtrip (o : Option String)
    (h : ∀ s, o = some s → s ∈ SUPPORTED_DASH_STYLE_VALUES) :
    Zone.dashStyleSetter ((trimV (optStr o)).getD .null) = .ok o := by
  cases o with
  | none => rfl
  | some s =>
    have hmem := h s rfl
    have hs : (s == "") = false := dash_mem_ne_empty s hmem
    have hcont : SUPPORTED_DASH_STYLE_VALUES.contains s = true := by
      simpa using hmem
    simp [optStr, trimV, hs, Zone.dashStyleSetter, validators.string,
          Value.falsy, hcont, hmem]

theorem colorSetter_roundtrip (o : Option ColorValue)
    (h : ∀ c, o = some c → ColorGood c) :
    Zone.colorSetter ((trimV (optColor o)).getD .null) = .ok o := by
  cases o with
  | none => rfl
  | some c =>
    rw [show optColor (some c) = serializeColor c from rfl]
    rw [trimV_serializeColor c (h c rfl), Option.getD_some]
    exact colorSetter_wire c (h c rfl)

/-- Round trip for `Zone`: deserializing the serialized form yields an
entity equal to the original — `fromDict (toDict z) = z` — for every entity
whose set fields are reachable through the setters and survive trimming: a
non-empty class name, a supported dash style, and color fields that are
`None`, discriminator-carrying strings, or trimmed `Gradient` / `Pattern`
values carrying their discriminator key. -/
theorem zone_roundtrip (z : Zone)
    (hcn : ∀ s, z.class_name = some s → (s == "") = false)
    (hds : ∀ s, z.dash_style = some s → s ∈ SUPPORTED_DASH_STYLE_VALUES)
    (hc : ∀ c, z.color = some c → ColorGood c)
    (hf : ∀ c, z.fill_color = some c → ColorGood c) :
    Zone.fromDict (Zone.toDict z) = .ok z := by
  have hnd : ((Zone.untrimmedDict z).map Prod.fst).Nodup := by
    rw [show (Zone.untrimmedDict z).map Prod.fst =
        ["className", "color", "dashStyle", "fillColor", "value"] from rfl]
    decide
  have e1 : dictPop (Zone.toDict z) "className" .null =
      (trimV (optStr z.class_name)).getD .null :=
    dictPop_trimFields _ hnd _ _ rfl
  have e2 : dictPop (Zone.toDict z) "color" .null =
      (trimV (optColor z.color)).getD .null :=
    dictPop_trimFields _ hnd _ _ rfl
  have e3 : dictPop (Zone.toDict z) "dashStyle" .null =
      (trimV (optStr z.dash_style)).getD .null :=
    dictPop_trimFields _ hnd _ _ rfl
  have e4 : dictPop (Zone.toDict z) "fillColor" .null =
      (trimV (optColor z.fill_color)).getD .null :=
    dictPop_trimFields _ hnd _ _ rfl
  have e5 : dictPop (Zone.toDict z) "value" .null =
      (trimV (optNum z.value)).getD .null :=
    dictPop_trimFields _ hnd _ _ rfl
  unfold Zone.fromDict
  rw [e1, e2, e3, e4, e5]
  rw [show Zone.fillColorSetter = Zone.colorSetter from rfl]
  rw [classNameSetter_roundtrip z.class_name hcn,
      colorSetter_roundtrip z.color hc,
      dashStyleSetter_roundtrip z.dash_style hds,
      colorSetter_roundtrip z.fill_color hf,
      valueSetter_roundtrip z.value]
  rfl

end HighchartsCore
namespace HighchartsCore

theorem validateTypes_error_eq (i : Value) (e : HCError)
    (h : validateTypesGradientOrPattern i = .error e) :
    e = .highchartsValueError := by
  cases i <;> simp_all [validateTypesGradientOrPattern]

theorem checkedValues_string_error (str : String) :
    ∀ items : List Value, Value.s str ∈ items →
      checkedValues items = .error .highchartsValueError := by
  intro items
  induction items with
  | nil => intro h; cases h
  | cons hd tl ih =>
    intro h
    cases h with
    | head => simp [checkedValues, validateTypesGradientOrPattern]
    | tail _ hmem =>
      cases hcase : validateTypesGradientOrPattern hd with
      | error e =>
        have he := validateTypes_error_eq hd e hcase
        subst he
        simp [checkedValues, hcase]
      | ok c =>
        simp [checkedValues, hcase, ih hmem]

theorem heatmap_parent_wins (h : HeatmapOptions)
    (parent : List (String × Value)) (k : String) (v w : Value)
    (hnd : (parent.map Prod.fst).Nodup)
    (hfind : parent.find? (fun kv => kv.1 == k) = some (k, v))
    (htv : trimV v = some w) :
    dictGet (HeatmapOptions.toDict h parent) k = w := by
  have hndu : ((HeatmapOptions.untrimmedDict h).map Prod.fst).Nodup := by
    rw [show (HeatmapOptions.untrimmedDict h).map Prod.fst =
        ["borderRadius", "colsize", "nullColor", "pointPadding", "rowsize"] from rfl]
    decide
  have hndx :=
    nodup_keys_dictUpdateAll parent (HeatmapOptions.untrimmedDict h) hndu
  have hfx :=
    find_dictUpdateAll parent (HeatmapOptions.untrimmedDict h) k v hnd hfind
  unfold HeatmapOptions.toDict dictGet
  rw [dictPop_trimFields _ hndx _ _ hfx, htv]
  rfl

theorem sankey_parent_wins (s : SankeyOptions)
    (parent : List (String × Value)) (k : String) (v : Value)
    (hnd : (parent.map Prod.fst).Nodup)
    (hfind : parent.find? (fun kv => kv.1 == k) = some (k, v)) :
    dictGet (SankeyOptions.toUntrimmedDict s parent) k = v := by
  unfold SankeyOptions.toUntrimmedDict dictGet dictPop
  rw [find_dictUpdateAll parent _ k v hnd hfind]

end HighchartsCore
namespace HighchartsCore

/-- The conditions under which a `Legend` value is reachable through the
setters and its set fields survive trimming: strings are non-empty, enum
fields hold one of their (already lower-cased) allowed values, the
minimum-0 numeric fields are non-negative, nested-entity and shadow
mappings are non-empty and trimming-invariant, a numeric width is positive,
and `x` / `y` are `None` — the only value their setters (which validate and
discard) can leave in place. -/
structure LegendReachable (l : Legend) : Prop where
  accessibility : ∀ fs, l.accessibility = some fs → trimFields fs = fs ∧ fs ≠ []
  align : ∀ s, l.align = some s → s ∈ (["left", "center", "right"] : List String)
  background_color : ∀ c, l.background_color = some c → ColorGood c
  border_color : ∀ c, l.border_color = some c → ColorGood c
  bubble_legend : ∀ fs, l.bubble_legend = some fs → trimFields fs = fs ∧ fs ≠ []
  class_name : ∀ s, l.class_name = some s → (s == "") = false
  item_checkbox_style : ∀ s, l.item_checkbox_style = some s → (s == "") = false
  item_distance : ∀ q, l.item_distance = some q → 0 ≤ q
  item_hidden_style : ∀ s, l.item_hidden_style = some s → (s == "") = false
  item_hover_style : ∀ s, l.item_hover_style = some s → (s == "") = false
  item_margin_bottom : ∀ q, l.item_margin_bottom = some q → 0 ≤ q
  item_margin_top : ∀ q, l.item_margin_top = some q → 0 ≤ q
  item_style : ∀ s, l.item_style = some s → (s == "") = false
  item_width : ∀ q, l.item_width = some q → 0 ≤ q
  label_format : ∀ s, l.label_format = some s → (s == "") = false
  label_formatter : ∀ fs, l.label_formatter = some fs → trimFields fs = fs ∧ fs ≠ []
  layout : ∀ s, l.layout = some s →
    s ∈ (["horizontal", "vertical", "proximate"] : List String)
  max_height : ∀ q, l.max_height = some q → 0 ≤ q
  navigation : ∀ fs, l.navigation = some fs → trimFields fs = fs ∧ fs ≠ []
  shadow : ∀ fs, l.shadow = some (.opts fs) → trimFields fs = fs ∧ fs ≠ []
  symbol_height : ∀ q, l.symbol_height = some q → 0 ≤ q
  symbol_width : ∀ q, l.symbol_width = some q → 0 ≤ q
  title : ∀ fs, l.title = some fs → trimFields fs = fs ∧ fs ≠ []
  vertical_align : ∀ s, l.vertical_align = some s →
    s ∈ (["bottom", "middle", "top"] : List String)
  width_s : ∀ str, l.width = some (.s str) → (str == "") = false
  width_n : ∀ q, l.width = some (.n q) → 0 < q
  x_none : l.x = none
  y_none : l.y = none

/-- A concrete reachable zone used to witness the round trip. -/
def zoneRoundtripWitnessValue : Zone :=
  { class_name := some "zone-a",
    color := some (.gradient [("linearGradient", .obj [("x1", .num 0)])]),
    dash_style := some "Dash",
    fill_color := none,
    value := some 0 }

/-- A concrete reachable legend used to witness the round trip: a gradient
background, an enum value, a non-empty class name, `enabled = False`, the
shadow literal `False`, numeric fields, and everything else `None`. -/
def legendRoundtripWitnessValue : Legend :=
  { accessibility := none, align := some "left", align_columns := none,
    background_color :=
      some (.gradient [("linearGradient", .obj [("x1", .num 0)])]),
    border_color := none, border_width := some 2, border_radius := none,
    bubble_legend := none, class_name := some "main-legend",
    enabled := some false, floating := none, item_checkbox_style := none,
    item_distance := some 10, item_hidden_style := none,
    item_hover_style := none, item_margin_bottom := none,
    item_margin_top := none, item_style := none, item_width := none,
    label_format := none, label_formatter := none, layout := none,
    margin := none, max_height := none, navigation := none, padding := none,
    reversed := none, rtl := none, shadow := some .off,
    square_symbol := none, symbol_height := none, symbol_padding := none,
    symbol_radius := none, symbol_width := none, title := none,
    use_html := none, vertical_align := none, width := none,
    x := none, y := none }

theorem stringField_roundtrip (o : Option String)
    (h : ∀ s, o = some s → (s == "") = false) :
    validators.string true ((trimV (optStr o)).getD .null) = .ok o := by
  cases o with
  | none => rfl
  | some s =>
    have hs := h s rfl
    simp [optStr, trimV, hs, validators.string, Value.falsy]

theorem boolField_roundtrip (o : Option Bool) :
    boolSetter ((trimV (optBool o)).getD .null) = o := by
  cases o with
  | none => rfl
  | some v => cases v <;> rfl

theorem numericField_roundtrip (o : Option ℚ) :
    validators.numeric true none ((trimV (optNum o)).getD .null) = .ok o := by
  cases o <;> rfl

theorem numericMin0Field_roundtrip (o : Option ℚ)
    (h : ∀ q, o = some q → 0 ≤ q) :
    validators.numeric true (some 0) ((trimV (optNum o)).getD .null) = .ok o := by
  cases o with
  | none => rfl
  | some q =>
    have hq := h q rfl
    have hlt : ¬ q < 0 := not_lt.mpr hq
    simp [optNum, trimV, validators.numeric, hlt]

theorem nestedField_roundtrip (o : Option (List (String × Value)))
    (h : ∀ fs, o = some fs → trimFields fs = fs ∧ fs ≠ []) :
    nestedSetter ((trimV (optNested o)).getD .null) = .ok o := by
  cases o with
  | none => rfl
  | some fs =>
    obtain ⟨htrim, hne⟩ := h fs rfl
    have hfe : fs.isEmpty = false := by
      cases fs
      · exact absurd rfl hne
      · rfl
    simp [optNested, trimV, htrim, hfe, nestedSetter]

theorem alignField_roundtrip (o : Option String)
    (h : ∀ s, o = some s → s ∈ (["left", "center", "right"] : List String)) :
    Legend.alignSetter ((trimV (optStr o)).getD .null) = .ok o := by
  cases o with
  | none => rfl
  | some s =>
    have hmem := h s rfl
    fin_cases hmem <;> rfl

theorem layoutField_roundtrip (o : Option String)
    (h : ∀ s, o = some s →
      s ∈ (["horizontal", "vertical", "proximate"] : List String)) :
    Legend.layoutSetter ((trimV (optStr o)).getD .null) = .ok o := by
  cases o with
  | none => rfl
  | some s =>
    have hmem := h s rfl
    fin_cases hmem <;> rfl

theorem verticalAlignField_roundtrip (o : Option String)
    (h : ∀ s, o = some s → s ∈ (["bottom", "middle", "top"] : List String)) :
    Legend.verticalAlignSetter ((trimV (optStr o)).getD .null) = .ok o := by
  cases o with
  | none => rfl
  | some s =>
    have hmem := h s rfl
    fin_cases hmem <;> rfl

theorem shadowField_roundtrip (o : Option ShadowValue)
    (h : ∀ fs, o = some (.opts fs) → trimFields fs = fs ∧ fs ≠ []) :
    Legend.shadowSetter ((trimV (optShadow o)).getD .null) = .ok o := by
  cases o with
  | none => rfl
  | some sv =>
    cases sv with
    | off => rfl
    | opts fs =>
      obtain ⟨htrim, hne⟩ := h fs rfl
      have hfe : fs.isEmpty = false := by
        cases fs
        · exact absurd rfl hne
        · rfl
      simp [optShadow, trimV, htrim, hfe, Legend.shadowSetter]

theorem widthField_roundtrip (o : Option WidthValue)
    (hstr : ∀ str, o = some (.s str) → (str == "") = false)
    (hnum : ∀ q, o = some (.n q) → 0 < q) :
    Legend.widthSetter ((trimV (optWidth o)).getD .null) = .ok o := by
  cases o with
  | none => rfl
  | some w =>
    cases w with
    | s str =>
      have hs := hstr str rfl
      simp [optWidth, trimV, hs, Legend.widthSetter, Value.falsy,
            validators.string]
    | n q =>
      have hq := hnum q rfl
      have hne : (q == 0) = false := beq_eq_false_iff_ne.mpr hq.ne'
      have hlt : ¬ q < 0 := not_lt.mpr (le_of_lt hq)
      simp [optWidth, trimV, Legend.widthSetter, Value.falsy, hne,
            validators.string, validators.numeric, hlt]

theorem xField_roundtrip (o : Option ℚ) (h : o = none) :
    Legend.xSetter none ((trimV (optNum o)).getD .null) = .ok o := by
  subst h; rfl

theorem yField_roundtrip (o : Option ℚ) (h : o = none) :
    Legend.ySetter none ((trimV (optNum o)).getD .null) = .ok o := by
  subst h; rfl

theorem legend_roundtrip (l : Legend) (hr : LegendReachable l) :
    Legend.fromDict (Legend.toDict l) = .ok l := by
  have hnd : ((Legend.untrimmedDict l).map Prod.fst).Nodup := by
    rw [show (Legend.untrimmedDict l).map Prod.fst =
        ["accessibility", "align", "alignColumns", "backgroundColor", "borderColor", "borderWidth", "borderRadius", "bubbleLegend", "className", "enabled", "floating", "itemCheckboxStyle", "itemDistance", "itemHiddenStyle", "itemHoverStyle", "itemMarginBottom", "itemMarginTop", "itemStyle", "itemWidth", "labelFormat", "labelFormatter", "layout", "margin", "maxHeight", "navigation", "padding", "reversed", "rtl", "shadow", "squareSymbol", "symbolHeight", "symbolPadding", "symbolRadius", "symbolWidth", "title", "useHTML", "verticalAlign", "width", "x", "y"] from rfl]
    decide
  have e01 : dictPop (Legend.toDict l) "accessibility" .null =
      (trimV (optNested l.accessibility)).getD .null :=
    dictPop_trimFields _ hnd _ _ rfl
  have e02 : dictPop (Legend.toDict l) "align" .null =
      (trimV (optStr l.align)).getD .null :=
    dictPop_trimFields _ hnd _ _ rfl
  have e03 : dictPop (Legend.toDict l) "alignColumns" .null =
      (trimV (optBool l.align_columns)).getD .null :=
    dictPop_trimFields _ hnd _ _ rfl
  have e04 : dictPop (Legend.toDict l) "backgroundColor" .null =
      (trimV (optColor l.background_color)).getD .null :=
    dictPop_trimFields _ hnd _ _ rfl
  have e05 : dictPop (Legend.toDict l) "borderColor" .null =
      (trimV (optColor l.border_color)).getD .null :=
    dictPop_trimFields _ hnd _ _ rfl
  have e06 : dictPop (Legend.toDict l) "borderWidth" .null =
      (trimV (optNum l.border_width)).getD .null :=
    dictPop_trimFields _ hnd _ _ rfl
  have e07 : dictPop (Legend.toDict l) "borderRadius" .null =
      (trimV (optNum l.border_radius)).getD .null :=
    dictPop_trimFields _ hnd _ _ rfl
  have e08 : dictPop (Legend.toDict l) "bubbleLegend" .null =
      (trimV (optNested l.bubble_legend)).getD .null :=
    dictPop_trimFields _ hnd _ _ rfl
  have e09 : dictPop (Legend.toDict l) "className" .null =
      (trimV (optStr l.class_name)).getD .null :=
    dictPop_trimFields _ hnd _ _ rfl
  have e10 : dictPop (Legend.toDict l) "enabled" .null =
      (trimV (optBool l.enabled)).getD .null :=
    dictPop_trimFields _ hnd _ _ rfl
  have e11 : dictPop (Legend.toDict l) "floating" .null =
      (trimV (optBool l.floating)).getD .null :=
    dictPop_trimFields _ hnd _ _ rfl
  have e12 : dictPop (Legend.toDict l) "itemCheckboxStyle" .null =
      (trimV (optStr l.item_checkbox_style)).getD .null :=
    dictPop_trimFields _ hnd _ _ rfl
  have e13 : dictPop (Legend.toDict l) "itemDistance" .null =
      (trimV (optNum l.item_distance)).getD .null :=
    dictPop_trimFields _ hnd _ _ rfl
  have e14 : dictPop (Legend.toDict l) "itemHiddenStyle" .null =
      (trimV (optStr l.item_hidden_style)).getD .null :=
    dictPop_trimFields _ hnd _ _ rfl
  have e15 : dictPop (Legend.toDict l) "itemHoverStyle" .null =
      (trimV (optStr l.item_hover_style)).getD .null :=
    dictPop_trimFields _ hnd _ _ rfl
  have e16 : dictPop (Legend.toDict l) "itemMarginBottom" .null =
      (trimV (optNum l.item_margin_bottom)).getD .null :=
    dictPop_trimFields _ hnd _ _ rfl
  have e17 : dictPop (Legend.toDict l) "itemMarginTop" .null =
      (trimV (optNum l.item_margin_top)).getD .null :=
    dictPop_trimFields _ hnd _ _ rfl
  have e18 : dictPop (Legend.toDict l) "itemStyle" .null =
      (trimV (optStr l.item_style)).getD .null :=
    dictPop_trimFields _ hnd _ _ rfl
  have e19 : dictPop (Legend.toDict l) "itemWidth" .null =
      (trimV (optNum l.item_width)).getD .null :=
    dictPop_trimFields _ hnd _ _ rfl
  have e20 : dictPop (Legend.toDict l) "labelFormat" .null =
      (trimV (optStr l.label_format)).getD .null :=
    dictPop_trimFields _ hnd _ _ rfl
  have e21 : dictPop (Legend.toDict l) "labelFormatter" .null =
      (trimV (optNested l.label_formatter)).getD .null :=
    dictPop_trimFields _ hnd _ _ rfl
  have e22 : dictPop (Legend.toDict l) "layout" .null =
      (trimV (optStr l.layout)).getD .null :=
    dictPop_trimFields _ hnd _ _ rfl
  have e23 : dictPop (Legend.toDict l) "margin" .null =
      (trimV (optNum l.margin)).getD .null :=
    dictPop_trimFields _ hnd _ _ rfl
  have e24 : dictPop (Legend.toDict l) "maxHeight" .null =
      (trimV (optNum l.max_height)).getD .null :=
    dictPop_trimFields _ hnd _ _ rfl
  have e25 : dictPop (Legend.toDict l) "navigation" .null =
      (trimV (optNested l.navigation)).getD .null :=
    dictPop_trimFields _ hnd _ _ rfl
  have e26 : dictPop (Legend.toDict l) "padding" .null =
      (trimV (optNum l.padding)).getD .null :=
    dictPop_trimFields _ hnd _ _ rfl
  have e27 : dictPop (Legend.toDict l) "reversed" .null =
      (trimV (optBool l.reversed)).getD .null :=
    dictPop_trimFields _ hnd _ _ rfl
  have e28 : dictPop (Legend.toDict l) "rtl" .null =
      (trimV (optBool l.rtl)).getD .null :=
    dictPop_trimFields _ hnd _ _ rfl
  have e29 : dictPop (Legend.toDict l) "shadow" .null =
      (trimV (optShadow l.shadow)).getD .null :=
    dictPop_trimFields _ hnd _ _ rfl
  have e30 : dictPop (Legend.toDict l) "squareSymbol" .null =
      (trimV (optBool l.square_symbol)).getD .null :=
    dictPop_trimFields _ hnd _ _ rfl
  have e31 : dictPop (Legend.toDict l) "symbolHeight" .null =
      (trimV (optNum l.symbol_height)).getD .null :=
    dictPop_trimFields _ hnd _ _ rfl
  have e32 : dictPop (Legend.toDict l) "symbolPadding" .null =
      (trimV (optNum l.symbol_padding)).getD .null :=
    dictPop_trimFields _ hnd _ _ rfl
  have e33 : dictPop (Legend.toDict l) "symbolRadius" .null =
      (trimV (optNum l.symbol_radius)).getD .null :=
    dictPop_trimFields _ hnd _ _ rfl
  have e34 : dictPop (Legend.toDict l) "symbolWidth" .null =
      (trimV (optNum l.symbol_width)).getD .null :=
    dictPop_trimFields _ hnd _ _ rfl
  have e35 : dictPop (Legend.toDict l) "title" .null =
      (trimV (optNested l.title)).getD .null :=
    dictPop_trimFields _ hnd _ _ rfl
  have e36 : dictPop (Legend.toDict l) "useHTML" .null =
      (trimV (optBool l.use_html)).getD .null :=
    dictPop_trimFields _ hnd _ _ rfl
  have e37 : dictPop (Legend.toDict l) "verticalAlign" .null =
      (trimV (optStr l.vertical_align)).getD .null :=
    dictPop_trimFields _ hnd _ _ rfl
  have e38 : dictPop (Legend.toDict l) "width" .null =
      (trimV (optWidth l.width)).getD .null :=
    dictPop_trimFields _ hnd _ _ rfl
  have e39 : dictPop (Legend.toDict l) "x" .null =
      (trimV (optNum l.x)).getD .null :=
    dictPop_trimFields _ hnd _ _ rfl
  have e40 : dictPop (Legend.toDict l) "y" .null =
      (trimV (optNum l.y)).getD .null :=
    dictPop_trimFields _ hnd _ _ rfl
  unfold Legend.fromDict
  rw [e01, e02, e03, e04, e05, e06, e07, e08, e09, e10, e11, e12, e13, e14, e15, e16, e17, e18, e19, e20, e21, e22, e23, e24, e25, e26, e27, e28, e29, e30, e31, e32, e33, e34, e35, e36, e37, e38, e39, e40]
  rw [show Legend.enabledSetter = boolSetter from rfl,
      show Legend.backgroundColorSetter = Zone.colorSetter from rfl,
      show Legend.borderColorSetter = Zone.colorSetter from rfl]
  rw [nestedField_roundtrip l.accessibility hr.accessibility,
      alignField_roundtrip l.align hr.align,
      boolField_roundtrip l.align_columns,
      colorSetter_roundtrip l.background_color hr.background_color,
      colorSetter_roundtrip l.border_color hr.border_color,
      numericField_roundtrip l.border_width,
      numericField_roundtrip l.border_radius,
      nestedField_roundtrip l.bubble_legend hr.bubble_legend,
      stringField_roundtrip l.class_name hr.class_name,
      boolField_roundtrip l.enabled,
      boolField_roundtrip l.floating,
      stringField_roundtrip l.item_checkbox_style hr.item_checkbox_style,
      numericMin0Field_roundtrip l.item_distance hr.item_distance,
      stringField_roundtrip l.item_hidden_style hr.item_hidden_style,
      stringField_roundtrip l.item_hover_style hr.item_hover_style,
      numericMin0Field_roundtrip l.item_margin_bottom hr.item_margin_bottom,
      numericMin0Field_roundtrip l.item_margin_top hr.item_margin_top,
      stringField_roundtrip l.item_style hr.item_style,
      numericMin0Field_roundtrip l.item_width hr.item_width,
      stringField_roundtrip l.label_format hr.label_format,
      nestedField_roundtrip l.label_formatter hr.label_formatter,
      layoutField_roundtrip l.layout hr.layout,
      numericField_roundtrip l.margin,
      numericMin0Field_roundtrip l.max_height hr.max_height,
      nestedField_roundtrip l.navigation hr.navigation,
      numericField_roundtrip l.padding,
      boolField_roundtrip l.reversed,
      boolField_roundtrip l.rtl,
      shadowField_roundtrip l.shadow hr.shadow,
      boolField_roundtrip l.square_symbol,
      numericMin0Field_roundtrip l.symbol_height hr.symbol_height,
      numericField_roundtrip l.symbol_padding,
      numericField_roundtrip l.symbol_radius,
      numericMin0Field_roundtrip l.symbol_width hr.symbol_width,
      nestedField_roundtrip l.title hr.title,
      boolField_roundtrip l.use_html,
      verticalAlignField_roundtrip l.vertical_align hr.vertical_align,
      widthField_roundtrip l.width hr.width_s hr.width_n,
      xField_roundtrip l.x hr.x_none,
      yField_roundtrip l.y hr.y_none]
  rfl

end HighchartsCore

namespace HighchartsCore

/-- C1: assigning the plain, non-empty color string `"#FF0000"` (which
contains neither discriminator marker) to a color-valued field setter does
not store it — the resolution chain falls through to its final branch and
raises `HighchartsValueError`.  The third conjunct shows the same for
`SelectState.border_color`, whose own constructor default is the plain
string `'#000000'`. -/
theorem c1_plain_color_string_rejected :
    Legend.backgroundColorSetter (.s "#FF0000") = .error .highchartsValueError ∧
    Zone.colorSetter (.s "#FF0000") = .error .highchartsValueError ∧
    SelectState.borderColorSetter (.s "#000000") = .error .highchartsValueError :=
  ⟨rfl, rfl, rfl⟩

/-- C2 (counterexample): serialization of a composed `TreemapOptions`
entity never merges parent fields or trims — `to_dict` fails with a
`TypeError` from `super(self).to_dict()` on every instance, here evaluated
on an explicit all-default instance. -/
theorem c2_counterexample :
    TreemapOptions.toDict
      ⟨none, none, none, none, none, none, none, none, none, none, none,
       none, none, none, none, none, none, none, none, none, none, none,
       none, false, none, none, none, none, none, none, none, none, none,
       none, none⟩ = .error .typeError := rfl

/-- C2 (amended): for the composed option classes, `TreemapOptions.to_dict`
always raises `TypeError` before any merge or trim; for `HeatmapOptions`
and `SankeyOptions` the merge loop writes the parent's produced entries over
the child's own mapping, so on any colliding key it is the parent's value
(trimmed, for the `to_dict` path) that appears in the final output;
`HeatmapOptions.to_dict` trims once at the end. -/
theorem c2_amended_parent_precedence :
    (∀ t : TreemapOptions, TreemapOptions.toDict t = .error .typeError) ∧
    (∀ (h : HeatmapOptions) (parent : List (String × Value)) (k : String)
        (v w : Value),
      (parent.map Prod.fst).Nodup →
      parent.find? (fun kv => kv.1 == k) = some (k, v) →
      trimV v = some w →
      dictGet (HeatmapOptions.toDict h parent) k = w) ∧
    (∀ (s : SankeyOptions) (parent : List (String × Value)) (k : String)
        (v : Value),
      (parent.map Prod.fst).Nodup →
      parent.find? (fun kv => kv.1 == k) = some (k, v) →
      dictGet (SankeyOptions.toUntrimmedDict s parent) k = v) :=
  ⟨fun _ => rfl,
   fun h parent k v w hnd hfind htv =>
     heatmap_parent_wins h parent k v w hnd hfind htv,
   fun s parent k v hnd hfind => sankey_parent_wins s parent k v hnd hfind⟩

/-- C2 (witness): concrete collisions — the parent's `colsize` overwrites
the heatmap child's stored `colsize`, and the parent's `linkColorMode`
overwrites the sankey child's own `linkColorMode`. -/
theorem c2_amended_witness :
    dictGet (HeatmapOptions.toDict ⟨none, some 2, none, none, none⟩
      [("colsize", .num 3)]) "colsize" = .num 3 ∧
    dictGet (SankeyOptions.toUntrimmedDict ⟨some "from"⟩
      [("linkColorMode", .s "to")]) "linkColorMode" = .s "to" :=
  ⟨c2_amended_parent_precedence.2.1 ⟨none, some 2, none, none, none⟩
      [("colsize", .num 3)] "colsize" (.num 3) (.num 3) (by decide) rfl rfl,
   c2_amended_parent_precedence.2.2 ⟨some "from"⟩
      [("linkColorMode", .s "to")] "linkColorMode" (.s "to") (by decide) rfl⟩

/-- C3 (counterexample): the round trip is not the identity for every entity
type — a `HoverState` with every field `None` serializes to the empty
mapping, but deserializing the empty mapping re-materializes the non-`None`
from-mapping defaults (`enabled = True`, `brightness = 0.1`), so `None`
fields do not remain `None`. -/
theorem c3_counterexample :
    HoverState.fromDict (HoverState.toDict ⟨none, none, none, none, none⟩) ≠
      .ok ⟨none, none, none, none, none⟩ := by
  intro h
  have h2 : (Except.ok (⟨none, none, some (1/10), none, some true⟩ :
      HoverState) : Except HCError HoverState) =
      .ok ⟨none, none, none, none, none⟩ := h
  have h3 := Except.ok.inj h2
  have h4 := congrArg HoverState.enabled h3
  simp at h4

/-- C3 (amended): deserializing the serialized form yields an entity equal
to the original for `Zone` and for `Legend` — the entity types cited by the
claim — for every entity whose set fields are reachable through the setters
and survive trimming (for `Legend` this forces `x` and `y` to be `None`,
the only value their validate-and-discard setters can leave in place), with
fields left as `None` absent from the serialized mapping and still `None`
afterwards.  The claim's universal form fails for entity types whose
`from_dict` supplies non-`None` defaults (see the counterexample). -/
theorem c3_amended_roundtrip :
    (∀ z : Zone,
      (∀ s, z.class_name = some s → (s == "") = false) →
      (∀ s, z.dash_style = some s → s ∈ SUPPORTED_DASH_STYLE_VALUES) →
      (∀ c, z.color = some c → ColorGood c) →
      (∀ c, z.fill_color = some c → ColorGood c) →
      Zone.fromDict (Zone.toDict z) = .ok z) ∧
    (∀ l : Legend, LegendReachable l →
      Legend.fromDict (Legend.toDict l) = .ok l) :=
  ⟨fun z h1 h2 h3 h4 => zone_roundtrip z h1 h2 h3 h4,
   fun l hr => legend_roundtrip l hr⟩

/-- C3 (witness): a concrete zone (class name, gradient color carrying its
discriminator key, dash style, numeric value `0`) and a concrete legend
(gradient background, `align = 'left'`, non-empty class name,
`enabled = False`, `shadow = False`, numeric fields, `x = y = None`)
survive the round trip unchanged, their unset fields absent from the
serialized mapping and still `None` afterwards. -/
theorem c3_roundtrip_witness :
    Zone.fromDict (Zone.toDict zoneRoundtripWitnessValue) =
      .ok zoneRoundtripWitnessValue ∧
    Legend.fromDict (Legend.toDict legendRoundtripWitnessValue) =
      .ok legendRoundtripWitnessValue :=
  ⟨c3_amended_roundtrip.1 zoneRoundtripWitnessValue
      (by intro s h; injection h with h2; subst h2; rfl)
      (by intro s h; injection h with h2; subst h2; decide)
      (by intro c h; injection h with h2; subst h2; exact ⟨rfl, rfl⟩)
      (by intro c h; exact Option.noConfusion h),
   c3_amended_roundtrip.2 legendRoundtripWitnessValue
      { accessibility := fun fs h => Option.noConfusion h,
        align := fun s h => by injection h with h2; subst h2; decide,
        background_color := fun c h => by
          injection h with h2; subst h2; exact ⟨rfl, rfl⟩,
        border_color := fun c h => Option.noConfusion h,
        bubble_legend := fun fs h => Option.noConfusion h,
        class_name := fun s h => by injection h with h2; subst h2; rfl,
        item_checkbox_style := fun s h => Option.noConfusion h,
        item_distance := fun q h => by injection h with h2; subst h2; decide,
        item_hidden_style := fun s h => Option.noConfusion h,
        item_hover_style := fun s h => Option.noConfusion h,
        item_margin_bottom := fun q h => Option.noConfusion h,
        item_margin_top := fun q h => Option.noConfusion h,
        item_style := fun s h => Option.noConfusion h,
        item_width := fun q h => Option.noConfusion h,
        label_format := fun s h => Option.noConfusion h,
        label_formatter := fun fs h => Option.noConfusion h,
        layout := fun s h => Option.noConfusion h,
        max_height := fun q h => Option.noConfusion h,
        navigation := fun fs h => Option.noConfusion h,
        shadow := fun fs h => by
          injection h with h2; exact ShadowValue.noConfusion h2,
        symbol_height := fun q h => Option.noConfusion h,
        symbol_width := fun q h => Option.noConfusion h,
        title := fun fs h => Option.noConfusion h,
        vertical_align := fun s h => Option.noConfusion h,
        width_s := fun str h => Option.noConfusion h,
        width_n := fun q h => Option.noConfusion h,
        x_none := rfl,
        y_none := rfl }⟩

/-- C4 (counterexample): `Zone.color` and `HoverState.color` are both
color-valued fields, yet their setters accept different inputs: the plain
string `"#FF0000"` is rejected by `Zone.color` and stored by
`HoverState.color`, while a `Gradient` instance passes through `Zone.color`
and is rejected by `HoverState.color`. -/
theorem c4_counterexample :
    Zone.colorSetter (.s "#FF0000") = .error .highchartsValueError ∧
    HoverState.colorSetter (.s "#FF0000") = .ok (some "#FF0000") ∧
    Zone.colorSetter (.gradient [("linearGradient", .obj [("x1", .num 0)])]) =
      .ok (some (.gradient [("linearGradient", .obj [("x1", .num 0)])])) ∧
    HoverState.colorSetter (.gradient [("linearGradient", .obj [("x1", .num 0)])]) =
      .error .cannotCoerce :=
  ⟨rfl, rfl, rfl, rfl⟩

/-- C4 (amended): the color fields whose single property definition carries
the resolution chain (`Zone.color`, `Zone.fill_color`,
`Legend.background_color`, `Legend.border_color`,
`HoverState.border_color`, `SelectState.border_color`,
`HeatmapOptions.null_color`) all run the identical resolver; but
`HoverState.color` and `SelectState.color` are each defined twice in their
class bodies, so their effective setters are the plain string validator —
identical to each other, and disagreeing with the resolver on plain strings
such as `'#cccccc'` (the `SelectState.color` constructor default). -/
theorem c4_amended_resolver_families :
    (∀ v, Zone.fillColorSetter v = Zone.colorSetter v) ∧
    (∀ v, Legend.backgroundColorSetter v = Zone.colorSetter v) ∧
    (∀ v, Legend.borderColorSetter v = Zone.colorSetter v) ∧
    (∀ v, HoverState.borderColorSetter v = Zone.colorSetter v) ∧
    (∀ v, SelectState.borderColorSetter v = Zone.colorSetter v) ∧
    (∀ v, HeatmapOptions.nullColorSetter v = Zone.colorSetter v) ∧
    (∀ v, SelectState.colorSetter v = HoverState.colorSetter v) ∧
    (∀ v, HoverState.colorSetter v = validators.string true v) ∧
    Zone.colorSetter (.s "#cccccc") = .error .highchartsValueError ∧
    HoverState.colorSetter (.s "#cccccc") = .ok (some "#cccccc") :=
  ⟨fun _ => rfl, fun _ => rfl, fun _ => rfl, fun _ => rfl, fun _ => rfl,
   fun _ => rfl, fun _ => rfl, fun _ => rfl, rfl, rfl⟩

/-- C5: constructing a `Legend` from a mapping with numeric `x` and `y`
does not populate the corresponding attributes — the `x` and `y` setters
validate the value and then discard it, so both attributes are still
`None`. -/
theorem c5_xy_never_assigned :
    (Legend.fromDict [("x", .num 5), ("y", .num 7)]).map
        (fun l => (l.x, l.y)) = .ok (none, none) := rfl

/-- C6: a mapping containing the `linearGradient` discriminator key resolves
to a `Gradient` value (never a plain string) — even when the
`patternOptions` key is also present, since the gradient discriminator is
checked first — and `Gradient` / `Pattern` instances pass through the color
setters unchanged. -/
theorem c6_gradient_resolution :
    (∀ fs : List (String × Value), objHasKey fs "linearGradient" = true →
      Zone.colorSetter (.obj fs) = .ok (some (.gradient fs)) ∧
      HoverState.borderColorSetter (.obj fs) = .ok (some (.gradient fs))) ∧
    (∀ fs : List (String × Value),
      Zone.colorSetter (.gradient fs) = .ok (some (.gradient fs)) ∧
      Zone.colorSetter (.pattern fs) = .ok (some (.pattern fs)) ∧
      HoverState.borderColorSetter (.gradient fs) = .ok (some (.gradient fs)) ∧
      HoverState.borderColorSetter (.pattern fs) = .ok (some (.pattern fs))) := by
  constructor
  · intro fs hkey
    have hne : fs.isEmpty = false := by
      cases fs
      · exact absurd hkey (by decide)
      · rfl
    have hz : Zone.colorSetter (.obj fs) = .ok (some (.gradient fs)) := by
      simp [Zone.colorSetter, Value.falsy, hne, Value.hasMarker, hkey]
    refine ⟨hz, ?_⟩
    rw [show HoverState.borderColorSetter = Zone.colorSetter from rfl]
    exact hz
  · intro fs
    exact ⟨rfl, rfl, rfl, rfl⟩

/-- C6 (witness): a mapping carrying both discriminator keys resolves to a
`Gradient` built from the mapping, demonstrating the gradient-first
precedence on a concrete input. -/
theorem c6_witness :
    Zone.colorSetter (.obj [("linearGradient", .obj [("x1", .num 0)]),
        ("patternOptions", .obj [("width", .num 1)])]) =
      .ok (some (.gradient [("linearGradient", .obj [("x1", .num 0)]),
        ("patternOptions", .obj [("width", .num 1)])])) :=
  (c6_gradient_resolution.1 _ (by decide)).1

/-- C7 (counterexample): `Zone.dash_style` is an enum-constrained setter
that does not lower-case its input: the allowed value `'Solid'` given in
lower case (`'solid'`) is rejected, and `'Solid'` itself is stored without
normalization to lower case. -/
theorem c7_counterexample :
    Zone.dashStyleSetter (.s "solid") = .error .highchartsValueError ∧
    Zone.dashStyleSetter (.s "Solid") = .ok (some "Solid") := ⟨rfl, rfl⟩

/-- C7 (amended): `Legend.align` lower-cases before matching — every stored
value is the lower-cased input and lies in the allowed set, `'LEFT'`
normalizes to `'left'` and `'diagonal'` is rejected — whereas
`Zone.dash_style` matches case-sensitively against the capitalized
dash-style names: every stored value is the unmodified input, `'Solid'` is
stored as `'Solid'` and `'solid'` is rejected. -/
theorem c7_amended_enum_casing :
    (∀ s r, Legend.alignSetter (.s s) = .ok (some r) →
      r = strToLower s ∧ r ∈ (["left", "center", "right"] : List String)) ∧
    Legend.alignSetter (.s "LEFT") = .ok (some "left") ∧
    Legend.alignSetter (.s "diagonal") = .error .highchartsValueError ∧
    (∀ s r, Zone.dashStyleSetter (.s s) = .ok (some r) →
      r = s ∧ r ∈ SUPPORTED_DASH_STYLE_VALUES) ∧
    Zone.dashStyleSetter (.s "Solid") = .ok (some "Solid") ∧
    Zone.dashStyleSetter (.s "solid") = .error .highchartsValueError := by
  refine ⟨?_, rfl, rfl, ?_, rfl, rfl⟩
  · intro s r h
    by_cases hs : (s == "") = true
    · have hv : Legend.alignSetter (.s s) = .ok none := by
        simp [Legend.alignSetter, Value.falsy, hs]
      rw [hv] at h
      simp at h
    · have hs' := bool_eq_false hs
      by_cases hc : (["left", "center", "right"] : List String).contains
          (strToLower s) = true
      · have hcm : strToLower s ∈ (["left", "center", "right"] : List String) := by
          simpa using hc
        have hv : Legend.alignSetter (.s s) = .ok (some (strToLower s)) := by
          simp [Legend.alignSetter, Value.falsy, hs', validators.string, hc, hcm]
        rw [hv] at h
        have hr : strToLower s = r := by simpa using h
        subst hr
        refine ⟨rfl, ?_⟩
        simpa using hc
      · have hc' := bool_eq_false hc
        have hcm' : strToLower s ∉ (["left", "center", "right"] : List String) := by
          simpa using hc'
        have hv : Legend.alignSetter (.s s) = .error .highchartsValueError := by
          simp [Legend.alignSetter, Value.falsy, hs', validators.string, hc', hcm']
        rw [hv] at h
        simp at h
  · intro s r h
    by_cases hs : (s == "") = true
    · have hv : Zone.dashStyleSetter (.s s) = .ok none := by
        simp [Zone.dashStyleSetter, Value.falsy, hs]
      rw [hv] at h
      simp at h
    · have hs' := bool_eq_false hs
      by_cases hc : SUPPORTED_DASH_STYLE_VALUES.contains s = true
      · have hcm : s ∈ SUPPORTED_DASH_STYLE_VALUES := by simpa using hc
        have hv : Zone.dashStyleSetter (.s s) = .ok (some s) := by
          simp [Zone.dashStyleSetter, Value.falsy, hs', validators.string, hc, hcm]
        rw [hv] at h
        have hr : s = r := by simpa using h
        subst hr
        exact ⟨rfl, hcm⟩
      · have hc' := bool_eq_false hc
        have hcm' : s ∉ SUPPORTED_DASH_STYLE_VALUES := by simpa using hc'
        have hv : Zone.dashStyleSetter (.s s) = .error .highchartsValueError := by
          simp [Zone.dashStyleSetter, Value.falsy, hs', validators.string, hc', hcm']
        rw [hv] at h
        simp at h

/-- C7 (witness): applying the amended theorem at `'LEFT'` (accepted,
stored as `'left'`). -/
theorem c7_witness :
    "left" = strToLower "LEFT" ∧
      "left" ∈ (["left", "center", "right"] : List String) :=
  c7_amended_enum_casing.1 "LEFT" "left" rfl

/-- C8: `TreemapOptions.to_dict` never returns a mapping — after building
the child untrimmed dictionary it evaluates `super(self).to_dict()`, and
`super` called with the instance as its single argument raises `TypeError`
before any merge or trim. -/
theorem c8_treemap_to_dict_raises (t : TreemapOptions) :
    TreemapOptions.toDict t = .error .typeError := rfl

/-- C9: any non-empty list assigned to `TreemapOptions.colors` that contains
a plain color string is rejected with a validation error, because the
`isinstance(value, str)` guard in the loop inspects the whole list value
rather than the item, routing every item through the Gradient/Pattern type
check. -/
theorem c9_colors_list_with_string_rejected (items : List Value) (str : String)
    (hmem : Value.s str ∈ items) :
    TreemapOptions.colorsSetter (.arr items) = .error .highchartsValueError := by
  have hne : items.isEmpty = false := by
    cases items
    · cases hmem
    · rfl
  unfold TreemapOptions.colorsSetter
  rw [if_neg (by simp [Value.falsy, hne])]
  show (checkedValues items).map some = .error .highchartsValueError
  rw [checkedValues_string_error str items hmem]
  rfl

/-- C9 (witness): the singleton list holding the plain color string
`'#fff'` is rejected. -/
theorem c9_witness :
    TreemapOptions.colorsSetter (.arr [Value.s "#fff"]) =
      .error .highchartsValueError :=
  c9_colors_list_with_string_rejected [Value.s "#fff"] "#fff"
    (List.mem_cons_self _ _)

/-- C10: truthiness-guarded setters map every falsy input to `None` — the
valid non-negative number `0` assigned to `Legend.width` stores `None`, and
the empty string assigned to `Legend.align` or to a color field stores
`None` rather than raising — whereas the `is None`-guarded boolean setter
`Legend.enabled` preserves `False`. -/
theorem c10_truthiness_guards :
    Legend.widthSetter (.num 0) = .ok none ∧
    Legend.alignSetter (.s "") = .ok none ∧
    Legend.backgroundColorSetter (.s "") = .ok none ∧
    Zone.colorSetter (.s "") = .ok none ∧
    Legend.enabledSetter (.b false) = some false :=
  ⟨rfl, rfl, rfl, rfl, rfl⟩

end HighchartsCore
